import Mathlib

/-!
Verification development for the rai-companion repository.
Shallow embedding of the input classifier (rai_wrapper.py), the selection
engine (analytical_engine.py), the LLM dispatcher (api_dispatcher.py) and
the response formatter (output_parser_v2.py), together with the static
content library (analytical_content.py).
-/

set_option maxRecDepth 16384

namespace RAI

/-!
String utilities mirroring the Python primitives the sources use
(`str.strip`, `str.split`, `str.lower`, `in`, `str.count`, `str.isupper`,
`re` patterns over the ASCII character classes).  Characters are handled
at ASCII fidelity, which covers every lexicon constant and every concrete
input in this development.
-/

/-- Python whitespace for `str.strip` / `\s` (ASCII part). -/
def pyWs (c : Char) : Bool :=
  c = ' ' || c = '\t' || c = '\n' || c = '\r' || c = '\x0b' || c = '\x0c'

/-- Word character of the regex class `\w` (ASCII part). -/
def wordChar (c : Char) : Bool := c.isAlphanum || c = '_'

/-- Squeeze every maximal run of characters satisfying `p` down to its first
character (used for the `[!]\x7b2,\x7d`, `[?]\x7b2,\x7d` and `\s+` collapses). -/
def squeezeBy (p : Char → Bool) : List Char → List Char
  | [] => []
  | [c] => [c]
  | c :: c' :: rest =>
    if p c && p c' then squeezeBy p (c' :: rest) else c :: squeezeBy p (c' :: rest)

/-- Drop leading and trailing Python whitespace (`str.strip`). -/
def stripList (l : List Char) : List Char :=
  ((l.dropWhile pyWs).reverse.dropWhile pyWs).reverse

/-- `str.strip` on strings. -/
def pyStrip (s : String) : String := ⟨stripList s.toList⟩

/-- `str.strip(chars)`: drop the characters of `cs` from both ends. -/
def pyStripChars (cs : List Char) (l : List Char) : List Char :=
  ((l.dropWhile cs.contains).reverse.dropWhile cs.contains).reverse

/-- Substring test: Python `needle in hay` over character lists. -/
def isInfixList (needle : List Char) : List Char → Bool
  | [] => needle.isEmpty
  | c :: rest => needle.isPrefixOf (c :: rest) || isInfixList needle rest

/-- Python `needle in hay` on strings. -/
def pyContains (hay needle : String) : Bool := isInfixList needle.toList hay.toList

/-- `str.lower` (ASCII). -/
def pyLower (s : String) : String := ⟨s.toList.map Char.toLower⟩

/-- `str.startswith` on strings. -/
def pyStartsWith (s prefixStr : String) : Bool :=
  prefixStr.toList.isPrefixOf s.toList

/-- `str.endswith` on strings. -/
def pyEndsWith (s suffixStr : String) : Bool :=
  suffixStr.toList.reverse.isPrefixOf s.toList.reverse

/-- `str.count(c)` for a single character. -/
def pyCountChar (s : String) (c : Char) : Nat := s.toList.count c

/-- Python `str.isupper`: at least one cased character and no cased character
in lowercase (cased = alphabetic at our ASCII fidelity). -/
def pyIsUpper (s : String) : Bool :=
  s.toList.any Char.isAlpha && s.toList.all (fun c => !c.isAlpha || c.isUpper)

/-- Python `str.split()` with no argument: the maximal whitespace-free words. -/
def pyWords (s : String) : List String :=
  ((s.toList.splitOnP pyWs).filter (¬ ·.isEmpty)).map (⟨·⟩)

/-- Python `str.split(sep)[0]` for a one-character separator: the prefix up to
the first occurrence of `sep`. -/
def splitHead (sep : Char) (s : String) : String :=
  ⟨s.toList.takeWhile (· ≠ sep)⟩

/-- Python `str.split(sep)` for a one-character separator (keeps empty parts). -/
def splitOnChar (sep : Char) : List Char → List (List Char)
  | [] => [[]]
  | c :: rest =>
    if c = sep then [] :: splitOnChar sep rest
    else match splitOnChar sep rest with
      | [] => [[c]]
      | g :: gs => (c :: g) :: gs

/-- `str.split(sep)` on strings. -/
def pySplit (s : String) (sep : Char) : List String :=
  (splitOnChar sep s.toList).map (⟨·⟩)

/-- `sep.join(parts)`. -/
def pyJoin (sep : String) : List String → String
  | [] => ""
  | [x] => x
  | x :: xs => x ++ sep ++ pyJoin sep xs

/-- `str.replace(old, new)`: every non-overlapping occurrence, left to right
(all uses in the sources have a non-empty `old`). -/
def replaceAll (old new : List Char) : List Char → List Char
  | [] => []
  | c :: rest =>
    if old ≠ [] ∧ old.isPrefixOf (c :: rest) then
      new ++ replaceAll old new (rest.drop (old.length - 1))
    else
      c :: replaceAll old new rest
termination_by l => l.length
decreasing_by
  · simp only [List.length_cons]
    have := List.length_drop (old.length - 1) rest
    omega
  · simp

/-- `str.replace` on strings. -/
def pyReplace (s old new : String) : String :=
  ⟨replaceAll old.toList new.toList s.toList⟩

/-- Value of a decimal digit list (suffix parsing for module ids). -/
def digitsVal (l : List Char) : Nat :=
  l.foldl (fun acc c => acc * 10 + (c.toNat - 48)) 0

/-- Numeric suffix of a module id such as "FL-3" (digits after the dash). -/
def suffixNum (s : String) : Nat :=
  digitsVal (((s.toList.dropWhile (· ≠ '-')).drop 1).takeWhile Char.isDigit)

/-- Strict lexicographic comparison by code point: Python `<` on `str`. -/
def lexLt : List Char → List Char → Bool
  | [], [] => false
  | [], _ :: _ => true
  | _ :: _, [] => false
  | a :: as, b :: bs => if a < b then true else if a = b then lexLt as bs else false

/-- Python `<=` on `str`. -/
def pyStrLe (a b : String) : Bool := lexLt a.toList b.toList || a = b

/-- Insert into a `pyStrLe`-sorted list. -/
def insertSorted (x : String) : List String → List String
  | [] => [x]
  | y :: ys => if pyStrLe x y then x :: y :: ys else y :: insertSorted x ys

/-- Python `sorted` on a list of strings (code-point order). -/
def pySorted (l : List String) : List String := l.foldr insertSorted []

/-- Association lookup, the Python `dict.get` over our literal tables
(insertion order preserved, first binding wins). -/
def lookupAssoc {α : Type} (l : List (String × α)) (k : String) : Option α :=
  (l.find? (fun p => p.1 = k)).map (·.2)


/-- One module of the MODULE_LIBRARY in analytical_content.py. -/
structure ModuleData where
  name : String
  purpose : String
  core_questions : List String
  outputs : List String
  wisdom_injected : List String
  philosophical_anchoring : List String
deriving DecidableEq, Repr

/-- One level group of the MODULE_LIBRARY (CL / FL / NL / SL). -/
structure LevelGroup where
  name : String
  purpose : String
  modules : List (String × ModuleData)
deriving DecidableEq, Repr

/-- One premise of the PREMISE_LIBRARY dimensions. -/
structure PremiseData where
  title : String
  content : String
  rooted_in : String
deriving DecidableEq, Repr

/-- One dimension group (D1..D8) of the PREMISE_LIBRARY. -/
structure DimensionData where
  name : String
  description : String
  premises : List (String × PremiseData)
deriving DecidableEq, Repr

/-- MODULE_LIBRARY["CL"] from analytical_content.py. -/
def moduleGroupCL : LevelGroup :=
  ⟨"Cross-Level Meta Modules",
   "Handle input transformation, framing awareness, asymmetry checks, and value clarification",
   [
    ("CL-0",
     ⟨"Input Clarity and Narrative Normalization",
      "Pre-process user input to normalize vague, slangy, emotionally charged, or overly broad claims into analyzable form — while preserving intended meaning.",
      ["Is the input a question, a claim, or a loosely formed opinion?", "Does it contain emotional, tribal, or rhetorical noise?", "Can it be split into distinct factual, narrative, or systemic components?", "How can the input be reframed to test its adequacy without distorting intent?"],
      ["🧹 Cleaned-up, analyzable version of input", "🔍 Type classification: Factual Claim / Narrative / System Premise / Mixed", "🎭 Style flags: Slang, Hyperbole, Mockery, etc.", "🧭 Ready-for-analysis reformulation prompt"],
      ["Every thought deserves a second draft.", "Emotional noise is not a signal.", "Honor the intent. Clean the form."],
      ["D1.1", "D1.4", "D6.2"]⟩),
    ("CL-1",
     ⟨"Narrative Logic Compression",
      "Trace how individual facts are being linked into narrative arcs — and identify compression, distortion, or omission in that linkage.",
      ["Are facts cherry-picked or overpacked?", "Are connections between events natural or forced?", "Are narrative arcs formed by implication instead of logic?", "What causal assumptions are embedded in the story structure?"],
      ["🪞 Narrative compression warning", "🔗 Fact-to-Meaning linkage map", "⚠️ Omissions or false link alert", "🧭 Alternative narrative construction possibilities"],
      ["Narrative is the space between facts.", "Compression is the birthplace of distortion.", "What connects may also disconnect."],
      ["D1.3", "D4.1", "D7.2"]⟩),
    ("CL-2",
     ⟨"Epistemic Load Balance",
      "Test how knowledge burdens are distributed: What is assumed vs. what is proven? What must the audience infer, accept, or ignore?",
      ["What \x27common sense\x27 is assumed?", "Are any critical elements left implicit?", "Does the burden of proof fall unfairly on one side?", "What knowledge gaps are being papered over?"],
      ["🧠 Assumption audit", "⚖️ Burden imbalance detection", "📚 Hidden inference recovery prompt", "🕳️ Knowledge gap identification"],
      ["What\x27s not said may cost more than what is.", "A rigged narrative hides its load.", "Assumptions are the invisible architecture of argument."],
      ["D2.2", "D1.4", "D6.6"]⟩),
    ("CL-3",
     ⟨"Narrative Stack Tracking",
      "Map layered or nested narratives — how facts support storylines, which support ideologies, which support strategic goals.",
      ["What deeper story does this surface claim support?", "How many layers deep does the logic go?", "Are meta-narratives functioning as shields or amplifiers?", "Which narrative layer is doing the real work?"],
      ["🧩 Narrative layer diagram", "🧠 Ideology alignment marker", "🧭 Strategic function guess", "🔍 Meta-narrative identification"],
      ["Some stories wear other stories like armor.", "The first claim is often the bait.", "Depth reveals direction."],
      ["D4.2", "D6.3", "D7.1"]⟩),
    ("CL-4",
     ⟨"Moral and Strategic Fusion Detection",
      "Identify moments where moral language is fused with strategic logic to mask real motivations or trigger tribal response.",
      ["Are moral claims used to justify strategic actions?", "Is moral framing exaggerated to obscure realism?", "What would the statement sound like if stripped of moral charge?", "Does virtue signaling serve strategic functions?"],
      ["⚔️ Moral-strategic blend alert", "🧪 Neutral reframe prompt", "🎭 Tribal trigger identification", "🔍 Strategic interest revelation"],
      ["Moral words win wars — on screens.", "Look where the virtue points — then follow the money.", "Strategic necessity wears moral clothing."],
      ["D6.2", "D6.4", "D6.5"]⟩),
    ("CL-5",
     ⟨"Evaluative Symmetry Enforcement",
      "Ensure actors, events, or claims are judged by consistent standards — even if they belong to different camps, cultures, or ideologies.",
      ["Would this action be praised or condemned if done by the other side?", "Are similar acts being framed in opposite ways?", "Is the framework itself being bent to spare allies?", "What would neutral evaluation look like?"],
      ["♻️ Mirror standard test result", "🔄 Narrative double standard flag", "🧭 Neutral phrasing suggestion", "⚖️ Consistency evaluation score"],
      ["If it\x27s wrong for them, it\x27s wrong for you.", "Truth wears no uniform.", "Consistency is the test of principle."],
      ["D2.1", "D6.1", "D3.3"]⟩)
   ]⟩

/-- MODULE_LIBRARY["FL"] from analytical_content.py. -/
def moduleGroupFL : LevelGroup :=
  ⟨"Fact-Level Modules",
   "Analyze factual structure, traceability, manipulation, and reliability",
   [
    ("FL-1",
     ⟨"Claim Clarity and Anchoring",
      "Isolate and verify the core factual claims. Ensure each is specific, testable, and anchored in time/place.",
      ["What exactly is being claimed — and is it stated as a fact?", "Is it time-stamped and location-bound?", "Is it observable or measurable?", "Is it distorted by metaphor or emotional language?"],
      ["✅ Cleaned factual claims (rephrased neutrally)", "⏳ Timestamp and location attached (or flagged as missing)", "🧪 Verifiability score (High / Medium / Low)", "⚠️ Manipulation risk note (if present)"],
      ["Epistemic humility: Flag unverifiables, don\x27t guess.", "Linguistic precision: Strip rhetoric, keep signal.", "Facts live in time and space."],
      ["D1.1", "D1.2", "D2.1"]⟩),
    ("FL-2",
     ⟨"Asymmetrical Amplification Awareness",
      "Detect whether claims are being unnaturally promoted or suppressed due to information control asymmetries.",
      ["Is the claim widely echoed across high-power media or ignored despite relevance?", "Are opposing versions of the claim visible and credible?", "Who has the megaphone? Who has been silenced?", "What explains the amplification pattern?"],
      ["📊 Amplification score (High / Medium / Low)", "🔍 Visibility asymmetry indicator", "⚠️ Suppression likelihood flag", "📡 Media coordination assessment"],
      ["What is repeated is not necessarily true.", "Silence is often manufactured.", "Volume reveals agenda."],
      ["D3.2", "D5.1", "D6.6"]⟩),
    ("FL-3",
     ⟨"Source Independence Audit (w/ Pattern Recognition)",
      "Evaluate the independence, diversity, and reliability of sources cited or implied. Spot coordinated narratives or echo chambers.",
      ["Are the cited sources directly involved, third-party, or anonymous?", "Is there over-reliance on aligned actors?", "Do citations originate from power-linked networks (gov, media groups, NGOs)?", "What does the source ecosystem reveal about the claim?"],
      ["🧾 Source lineage (firsthand / allied / recycled)", "🌐 Source diversity index", "🧭 Pattern repetition alert (e.g., 3+ citations back to same pool)", "🔍 Independence assessment score"],
      ["Power speaks in chorus.", "Independence is not a brand, it\x27s a structure.", "Follow the source chain to find the source."],
      ["D2.3", "D5.2", "D3.2"]⟩),
    ("FL-4",
     ⟨"Strategic Relevance and Selection",
      "Evaluate whether a fact is strategically chosen to steer perception or obscure larger realities.",
      ["Is the fact central to the story or a distraction?", "Would omitting this fact mislead? Would adding a suppressed one clarify?", "Is it cherry-picked to create a false narrative?", "What does the selection pattern reveal about intent?"],
      ["🔍 Strategic distortion score", "🔀 Relevance contrast map (what was said vs. what could\x27ve been)", "🎯 Selection pattern analysis", "⚠️ Cherry-picking alert"],
      ["The truth may be in what\x27s unsaid.", "Strategic omission is the most elegant lie.", "Selection reveals intention."],
      ["D4.2", "D7.2", "D8.2"]⟩),
    ("FL-5",
     ⟨"Scale and Proportion Calibration",
      "Prevent inflation or minimization of facts through poor scale framing.",
      ["Is this fact being framed as exceptional or representative?", "Are numbers proportionate or manipulated by percent, scope, or baseline?", "Would this framing hold across equivalent cases?", "What does proper contextualization reveal?"],
      ["📏 Scale misrepresentation index", "⚖️ Equivalent comparison prompts", "📊 Proportion analysis", "🧭 Context calibration suggestions"],
      ["Big data can lie small, and small facts can scream.", "Context is the compass of honesty.", "Scale without context is manipulation."],
      ["D1.2", "D1.3", "D8.1"]⟩),
    ("FL-6",
     ⟨"Neglected Primary Speech Recognition",
      "Identify whether primary actor statements have been omitted or misrepresented.",
      ["Has the subject of the claim spoken directly on the matter?", "Are those statements missing, cherry-picked, or distorted?", "What would direct quotes reveal that paraphrases hide?", "Why might primary speech be avoided or filtered?"],
      ["🎙️ Key actor speech alignment indicator", "🧭 Primary statement search prompt", "📝 Quote vs. paraphrase analysis", "🔍 Speech omission pattern detection"],
      ["Let them speak — then check the echo.", "Silencing someone by paraphrase is still silencing.", "Primary speech reveals primary intent."],
      ["D2.3", "D3.1", "D6.1"]⟩),
    ("FL-7",
     ⟨"Risk Context Adjustment",
      "Tune skepticism based on stakes. Differentiate casual errors from high-stakes manipulations.",
      ["Is this claim embedded in a low-risk or high-risk topic (e.g., war, finance, biopolitics)?", "Do the consequences of falsehood justify higher scrutiny?", "What interests are served by belief or disbelief?", "How does risk level affect evidentiary standards?"],
      ["⚠️ Risk-weighted skepticism multiplier", "🔍 Elevation trigger (send to system-level for manipulation analysis)", "📊 Stakes assessment matrix", "🎯 Interest alignment analysis"],
      ["The higher the cost of the lie, the deeper you dig.", "Low-risk truths may not deserve your time. High-risk lies always do.", "Stakes determine standards."],
      ["D7.2", "D8.3", "D8.5"]⟩),
    ("FL-8",
     ⟨"Time & Place Anchoring",
      "Ensure all factual claims are tied to specific, verifiable moments and locations.",
      ["Is there a clear timestamp and identifiable location?", "Are those consistent with known records or conflicting claims?", "Is ambiguity being used to protect from accountability?", "What does temporal-spatial precision reveal or conceal?"],
      ["🗓️ Anchored claim string (e.g., \"On April 12, near Kharkiv...\")", "📍 Geo-temporal alignment map", "⚠️ Vagueness / contradiction alert", "🔍 Accountability avoidance indicator"],
      ["Truth lives in time. Lies float.", "No fact should be homeless.", "Precision prevents manipulation."],
      ["D1.2", "D7.1", "D7.4"]⟩),
    ("FL-9",
     ⟨"Toxic Label Audit",
      "Detect and neutralize judgment-distorting terms like \"conspiracy theory,\" \"populist,\" or \"authoritarian regime\" that may preempt empirical evaluation.",
      ["Is the claim being disqualified due to who says it rather than what is said?", "Are rhetorical labels replacing evidence or logic?", "Does the claim violate reality, or just elite preferences?", "What happens when we strip away the labels and examine the substance?"],
      ["🧼 Label Alert (flagged terms: conspiracy, regime, populist, far-right, misinformation, etc.)", "🔍 Rephrased neutral version for evaluation", "⚖️ Disqualification Warning (if rhetorical judgment exceeds factual basis)", "🎭 Label function analysis (dismissal vs. description)"],
      ["Adequacy trumps acceptability.", "A claim\x27s origin does not determine its validity.", "Ideological hygiene is not a proxy for truth."],
      ["D2.1", "D3.3", "D6.5"]⟩)
   ]⟩

/-- MODULE_LIBRARY["NL"] from analytical_content.py. -/
def moduleGroupNL : LevelGroup :=
  ⟨"Narrative-Level Modules",
   "Explore causal logic, coherence, and how identity, memory, and framing shape meaning",
   [
    ("NL-1",
     ⟨"Cause-Effect Chain Analysis",
      "Evaluate whether cause-and-effect logic is coherent, plausible, and properly sequenced — with careful attention to where the chain begins.",
      ["Are causes and consequences logically connected?", "Is the sequence clear, or manipulated to create confusion or moral reversal?", "Are plausible alternative causes or interpretations acknowledged?", "⚠️ Start-Point Bias Check: Is the chosen starting point contested or strategically selected? Are earlier causes being ignored?"],
      ["🔗 Coherence score for the causal chain", "🧭 Alternate origin marker (\"Some narratives begin the chain at...\")", "⚖️ Asymmetry alert (if causality is framed one-sidedly)"],
      ["Causality is not a straight line — it\x27s a choice of lens.", "Every chain has a beginning — but not every beginning is the truth.", "The origin you choose is the side you\x27ve chosen."],
      ["D4.1", "D4.3", "D7.2"]⟩),
    ("NL-2",
     ⟨"Narrative Plausibility & Internal Coherence",
      "Test the story\x27s internal logic, character consistency, and plausibility without external verification.",
      ["Do events follow naturally within the narrative?", "Are motivations consistent with known actor behavior?", "Are narrative contradictions explained or ignored?", "Does the story require magical thinking or implausible leaps?"],
      ["🧠 Internal coherence score", "🔍 Implausibility markers (events, motives, or logic jumps)", "📚 Suggested normalization or reframing prompts"],
      ["Even lies must make sense — if they don\x27t, question harder.", "Inconsistency is often the fingerprint of fiction."],
      ["D1.3", "D4.1", "D6.1"]⟩),
    ("NL-3",
     ⟨"Competing Narratives Contrast",
      "Surface alternative narratives to evaluate blind spots, cultural framings, or missing dimensions.",
      ["What other groups or actors interpret this differently?", "What facts do those narratives emphasize or ignore?", "Are they mutually exclusive or potentially synthesizable?", "Who benefits from each version?"],
      ["⚖️ Comparative narrative table", "🧭 Bias contrast summary", "🔄 Reconciliation path prompt (if possible)"],
      ["The truth may be divided, but the lies are often complete.", "Multiple lenses sharpen the image."],
      ["D3.3", "D6.1", "D8.4"]⟩),
    ("NL-4",
     ⟨"Identity, Memory, and Group Interest Framing",
      "Identify how group identities, historical trauma, and loyalty shape narrative preference and perception.",
      ["What group identities are centered, valorized, or demonized?", "Are historical grievances reactivated?", "How is loyalty framed: as honor, duty, betrayal, or survival?", "What moral or symbolic rewards are attached to belief?"],
      ["🧬 Identity bias map", "🧠 Loyalty trigger points", "🕯️ Historical memory activation log"],
      ["We see through the stories we inherit.", "Group truth is not whole truth."],
      ["D3.1", "D6.3", "D7.1"]⟩),
    ("NL-5",
     ⟨"Allegory, Analogy, and Symbol Injection",
      "Flag where metaphor, analogy, or symbolism is distorting clarity or smuggling ideology.",
      ["Are historical analogies accurate or manipulative (e.g., \"new Hitler,\" \"new Holocaust\")?", "Are symbols used to oversimplify or moralize?", "Does the analogy illuminate — or obscure — the situation?", "What emotional payload is the metaphor carrying?"],
      ["🔍 Symbolic distortion indicator", "🧠 Analogy accuracy flag", "🧭 De-metaphorization prompt"],
      ["Symbols short-circuit thinking when unchecked.", "Not all rhymes in history are honest."],
      ["D1.3", "D4.2", "D6.2"]⟩),
    ("NL-6",
     ⟨"Narrative Gaps",
      "Identify what\x27s missing from the story that would change interpretation or conclusion.",
      ["What key actors, events, or timeframes are absent?", "Would including missing elements change the moral or causal assessment?", "Are gaps strategic omissions or natural limitations?", "What would a more complete picture reveal?"],
      ["🕳️ Gap identification map", "🔍 Missing element assessment", "⚖️ Completeness evaluation"],
      ["What\x27s missing may matter more than what\x27s present.", "Gaps are not accidents — they are choices."],
      ["D4.1", "D7.1", "D3.2"]⟩)
   ]⟩

/-- MODULE_LIBRARY["SL"] from analytical_content.py. -/
def moduleGroupSL : LevelGroup :=
  ⟨"System-Level Modules",
   "Analyze strategic implications, institutional forces, ideological feedback loops, and structural distortion",
   [
    ("SL-1",
     ⟨"Power and Incentive Mapping",
      "Trace who benefits — economically, politically, strategically — from a given claim or interpretation.",
      ["What actors gain material or symbolic advantage?", "Are the incentives aligned with claimed values?", "Are incentives obscured, denied, or misattributed?"],
      ["🧭 Power-benefit chart", "💰 Incentive transparency flag", "⚠️ Strategic interest disclosure alert"],
      ["Follow the gain, not the claim.", "Who benefits is not who speaks — but who wins."],
      ["D5.1", "D5.3", "D8.2"]⟩),
    ("SL-2",
     ⟨"Institutional Behavior and Enforcement Patterns",
      "Examine how institutions (governments, media, NGOs) adopt, enforce, or suppress specific claims or framings.",
      ["Are institutions aligned in promoting a particular position?", "Is dissent punished or discouraged?", "What control mechanisms (laws, funding, censure) are in play?"],
      ["🧱 Enforcement map", "🚨 Suppression mechanism alert", "🧮 Institutional alignment score"],
      ["Institutions protect stories before people.", "Censorship is a form of narrative hygiene."],
      ["D5.2", "D5.3", "D8.3"]⟩),
    ("SL-3",
     ⟨"Identity and Memory Exploitation",
      "Uncover how collective memory, trauma, and identity are used to frame or justify current interpretations and arguments.",
      ["What past events are invoked to legitimize the present?", "Are traumas weaponized or selectively remembered?", "Whose identity is being centered — or erased?"],
      ["🕯️ Memory trigger detection", "🧠 Identity resonance map", "🔍 Historical abuse flag"],
      ["The past is not dead — it\x27s rebranded.", "Memory is power disguised as history."],
      ["D3.1", "D6.3", "D7.1"]⟩),
    ("SL-4",
     ⟨"Function and Purpose Analysis",
      "Determine the deeper goal of a claim or framing — mobilization, justification, distraction, polarization.",
      ["What action does the message inspire or block?", "Is the goal moral, strategic, emotional, or institutional?", "Is the audience meant to feel, think, or act?"],
      ["🎯 Functional tag (e.g., Mobilization / Justification / Deflection)", "🧭 Alignment with actor goals", "🧪 False purpose detection"],
      ["Messages are weapons with audiences as targets.", "Purpose reveals design — even in lies."],
      ["D4.2", "D4.4", "D5.3"]⟩),
    ("SL-5",
     ⟨"Systemic Resistance and Inversion",
      "Detect if a claim resists dominant systems or mimics resistance while reinforcing the same structures.",
      ["Is the framing genuinely oppositional or performative?", "Does it invert dominant logic or disguise it?", "Who adopts the resistance framing — and why?"],
      ["🧬 Resistance authenticity score", "🪞 Inversion pattern tag", "🧠 Mimicry detection alert"],
      ["Not all rebels seek revolution. Some just want a turn at the throne.", "Inversion is not liberation."],
      ["D4.3", "D5.3", "D6.3"]⟩),
    ("SL-6",
     ⟨"Feedback Systems and Loop Control",
      "Identify recursive reinforcement loops that bias understanding, suppress contradiction, or simulate consensus.",
      ["Are rebuttals systematically excluded?", "Do feedback channels reward loyalty over accuracy?", "Is dissent pathologized (e.g., labeled disloyal, irrational)?"],
      ["🔁 Loop map (actor-message-feedback)", "🚫 Dissent suppression marker", "📣 False consensus warning"],
      ["What repeats, rules.", "Broken echo is still an echo."],
      ["D5.2", "D7.3", "D8.4"]⟩),
    ("SL-7",
     ⟨"Strategic Forecast and Predictive Testing",
      "Test the implications of claims by projecting future actions, outcomes, or contradictions.",
      ["If the interpretation is true, what logically follows?", "Are predicted outcomes consistent with observed reality?", "Do real-world results falsify or validate the framing?"],
      ["📈 Forecast simulation tag", "⚖️ Outcome match score", "🔍 Predictive contradiction alert"],
      ["Truth has a trajectory.", "Prediction reveals what belief conceals."],
      ["D7.2", "D7.4", "D8.5"]⟩),
    ("SL-8",
     ⟨"Systemic Blind Spots and Vulnerabilities",
      "Reveal what the system or dominant information flow cannot process — its blind spots, silences, or forbidden truths.",
      ["What facts or arguments are persistently excluded?", "What questions can\x27t be asked in polite society?", "What knowledge is penalized?"],
      ["🚷 Forbidden topic alert", "🧠 Systemic silence map", "🕳️ Blind spot trigger list"],
      ["Systems fear what they can\x27t metabolize.", "The unspeakable reveals the ungovernable."],
      ["D3.2", "D5.3", "D8.4"]⟩),
    ("SL-9",
     ⟨"Adaptive Evolution Awareness",
      "Track how claims or framing evolve in response to public reaction, internal contradiction, or external pressure.",
      ["Has the claim subtly shifted its framing?", "Are past claims abandoned or reinterpreted?", "Are inconsistencies explained or ignored?"],
      ["🧬 Evolution trace (timeline)", "🌀 Strategic reframe detector", "🧊 Frozen contradiction tag"],
      ["The first draft of a lie often dies a hero.", "What adapts survives — but not always with its soul."],
      ["D7.3", "D7.4", "D8.6"]⟩),
    ("SL-10",
     ⟨"Feedback Loop Mapping and Distortion Patterns (Optional)",
      "Map and detect distortions in closed-loop information systems.",
      ["Who inputs, moderates, and echoes information?", "Where does distortion occur and for what purpose?"],
      ["🔁 Closed-loop diagram", "🪞 Distortion phase tags", "⚠️ Loop integrity score"],
      ["Echo makes truth louder — or drowns it."],
      ["D5.2", "D7.3", "D8.4"]⟩),
    ("SL-11",
     ⟨"Technocratic Logic and Algorithmic Governance (Optional)",
      "Evaluate how algorithms, models, and technocratic claims shape or substitute political logic.",
      ["What decisions are outsourced to systems?", "Are algorithmic claims used rhetorically?", "Does technical neutrality mask ideology?"],
      ["🧮 Technocratic language scan", "⚙️ Power-delegation map", "🧊 Ideological masking alert"],
      ["What looks neutral may be coded.", "Math is not morality."],
      ["D5.3", "D8.6", "D8.7"]⟩),
    ("SL-12",
     ⟨"Digital Infrastructure Control and Dependency (Optional)",
      "Assess how digital platforms, infrastructure, and dependencies shape strategic behavior and control over information.",
      ["Who owns and governs the digital pipes?", "What happens if the infrastructure is withdrawn?", "Are dependencies used as leverage?"],
      ["🌐 Infrastructure map", "🧲 Dependency exposure tag", "⚠️ Strategic vulnerability alert"],
      ["He who controls the pipe controls the pressure."],
      ["D5.2", "D8.2", "D8.7"]⟩)
   ]⟩

/-- MODULE_LIBRARY from analytical_content.py: level prefix → level group. -/
def MODULE_LIBRARY : List (String × LevelGroup) :=
  [("CL", moduleGroupCL), ("FL", moduleGroupFL), ("NL", moduleGroupNL), ("SL", moduleGroupSL)]

/-- PREMISE_LIBRARY["dimensions"]["D1"] from analytical_content.py. -/
def dimensionD1 : DimensionData :=
  ⟨"Power & Governance",
   "Political systems, governance, legitimacy, transitions of power",
   [
    ("D1.1",
     ⟨"Power is rarely surrendered; it is redistributed through ritual, consensus, or coercion",
      "In all functioning systems—democratic, autocratic, or hybrid—true power shifts occur under one of three conditions: Elite consensus to preserve stability, External pressure or control, or Systemic fracture or collapse. Elections and constitutional processes are often choreographed simulations to legitimize decisions already negotiated behind closed doors. Where elite unity breaks down or external actors intervene, transitions become turbulent, delayed, or violent.",
      "Elite Theory (Pareto, Mosca), Marxist Political Economy (false pluralism), Arendt (power as negotiated legitimacy)"⟩),
    ("D1.2",
     ⟨"Political actors emerge from their cultural substrate",
      "Politicians are neither a separate species nor inherently corrupt—they reflect the ambitions, fears, and incentives of their societal base. While some act from self-interest, others assume genuine stewardship of national projects. Systems produce the leaders they enable, and demonizing individuals obscures structural flaws or popular complicity.",
      "Arendtian thought, democratic realism, systems view of leadership emergence"⟩),
    ("D1.3",
     ⟨"Power is sustained through economic architecture",
      "Control over capital flows, debt, resource distribution, and media ownership often underlies political stability more than formal institutions or laws. Ownership replaces force, creating systemic compliance even in \"free\" societies.",
      "Marxist thought, Chomsky\x27s propaganda model, elite wealth consolidation"⟩)
   ]⟩

/-- PREMISE_LIBRARY["dimensions"]["D2"] from analytical_content.py. -/
def dimensionD2 : DimensionData :=
  ⟨"Geopolitical Order & Conflict",
   "Global hierarchy, war, asymmetry, strategic interests",
   [
    ("D2.1",
     ⟨"A few powers shape the planetary game",
      "Despite the appearance of multilateralism, geopolitical outcomes are determined by a small number of dominant states or blocs. Smaller actors either align with these poles, operate as regional proxies, or are marginalized. When evaluating claims of agency or independence in global affairs, it\x27s worth asking: who truly sets the terms of the conversation?",
      "Realist IR theory, unipolar/multipolar models, neocolonial continuity"⟩),
    ("D2.2",
     ⟨"Systemic war is ongoing, with kinetic conflict as its loudest symptom",
      "Economic pressure, cyberattacks, and narrative domination are integral tools of modern conflict. Physical war is no longer the beginning of conflict, but its explosion point. The war is on.",
      "Hybrid warfare doctrine, Russian \"Gerasimov doctrine,\" Western full-spectrum dominance strategies"⟩),
    ("D2.3",
     ⟨"Neutrality becomes illusion in systemic conflict",
      "In high-stakes global competition, all states are drawn into alignment, either through dependence, coercion, or survival instinct. True neutrality is impossible in a deeply interconnected world.",
      "Dependency theory, proxy warfare patterns, sanctions regimes"⟩),
    ("D2.4",
     ⟨"Nuclear weapons enforce adult behavior through existential fear",
      "The doctrine of Mutual Assured Destruction (MAD) has replaced idealism as the real guarantor of peace. Disarmament is noble, but premature. Without existential threat, aggressive competition would likely lead to catastrophe.",
      "Cold War logic, deterrence theory, game theory simulations"⟩),
    ("D2.5",
     ⟨"War is waged beneath the surface through deception and engineered ambiguity",
      "Modern power projection often hides behind peace initiatives, democratic rhetoric, or defensive postures. Narratives become masks for strategic aims, enabling operations without triggering open conflict.",
      "Sun Tzu (\"all warfare is based on deception\"), Clausewitz, Cold War covert operations, modern hybrid warfare theory"⟩),
    ("D2.6",
     ⟨"Geopolitical behavior is shaped by enduring asymmetries",
      "Power disparities in media reach, military capabilities, economic leverage, human resources, or technological infrastructure define what actors can realistically do.",
      "Asymmetric warfare theory, cyber power dynamics, realist IR, soft-power analysis"⟩),
    ("D2.7",
     ⟨"Strategic interests are survival logic dressed in moral clothing",
      "Behind every noble speech about peace and values is a spreadsheet calculating market access, resource control, and strategic leverage. States act not out of virtue, but necessity—or appetite. Moral narratives—freedom, peace, democracy—are often retrofitted onto strategic decisions.",
      "Strategic realism, Mearsheimer, critical geopolitics, constructivist IR"⟩)
   ]⟩

/-- PREMISE_LIBRARY["dimensions"]["D3"] from analytical_content.py. -/
def dimensionD3 : DimensionData :=
  ⟨"Information & Perception",
   "Epistemology, narrative warfare, cognitive control",
   [
    ("D3.1",
     ⟨"Information is a commodity in peace and a weapon in systemic conflict",
      "In peacetime, information flows are monetized; in systemic conflict, they are weaponized. Media must be controlled—whether through ownership, funding, surveillance, or subtle incentivization—by those with political or economic stakes. Mechanisms vary by system and culture, but truly \"free\" or \"independent\" media is a functional myth, not a structural reality.",
      "Chomsky\x27s propaganda model, Soviet \"information front\" strategy, CIA media infiltration, postmodern media studies"⟩),
    ("D3.2",
     ⟨"Censorship and visibility are asymmetric tools",
      "Control over digital infrastructure—platforms, algorithms, recommendation engines, content policies—enables nonlinear narrative dominance. What is suppressed is often less important than what is invisibly sidelined.",
      "Surveillance capitalism, Chinese content regulation models, shadow banning and algorithmic gatekeeping"⟩),
    ("D3.3",
     ⟨"Perception is power",
      "Legitimacy, victimhood, and moral high ground are not just narratives—they are operational assets. Winning the story often has greater strategic value than winning the terrain. Modern information warfare includes memetic injection, coordinated emotional framing, information flooding, and virality engineering. Conflicts are now fought not only in trenches, but in timelines.",
      "Information warfare doctrine, soft power theory, international law and public opinion asymmetry"⟩),
    ("D3.4",
     ⟨"Thought policing outperforms censorship",
      "When populations internalize the boundaries of acceptable thought, external repression becomes redundant. Self-censorship, social penalty, and digital panopticism are more effective than coercive force.",
      "Foucault (panopticon), Soviet self-criticism campaigns, cancel culture dynamics"⟩),
    ("D3.5",
     ⟨"Large-scale protests are rarely spontaneous",
      "Mass participation may appear organic, but major movements that gain traction nearly always rest on pre-existing infrastructure: trained organizers, aligned institutions, sympathetic media, and international funding streams. Spontaneity is often facilitated by invisible hands, especially in contested or transitional regimes.",
      "Color revolution manuals, NGO funding patterns, digital mobilization studies"⟩)
   ]⟩

/-- PREMISE_LIBRARY["dimensions"]["D4"] from analytical_content.py. -/
def dimensionD4 : DimensionData :=
  ⟨"Civilization & Culture",
   "Identity, memory, inherited trauma, ideological formation",
   [
    ("D4.1",
     ⟨"Cultural self-image distorts memory",
      "Societies tend to idealize their past, suppressing atrocities, defeats, or failures. Collective memory is selectively curated through trauma editing, symbolic purification, and ritualized storytelling in education, monuments, and national holidays. What is forgotten is as politically significant as what is remembered.",
      "Maurice Halbwachs (collective memory), Benedict Anderson (imagined communities), postcolonial theory, Arendt on narrative and history"⟩),
    ("D4.2",
     ⟨"Victimhood is political capital",
      "Groups and nations frame themselves as historical victims to gain legitimacy, immunize against criticism, and mobilize internal cohesion or international sympathy. These narratives often blur genuine trauma with instrumental storytelling, turning suffering into a shield or bargaining chip.",
      "Identity politics theory, Pierre Bourdieu (symbolic capital), critical discourse analysis"⟩),
    ("D4.3",
     ⟨"Civilizations pursue different visions of success",
      "All cultures strive for stability, continuity, and influence—but their definitions of success vary profoundly. Some prioritize expansion or technological progress; others value harmony, survival, or spiritual legacy. Strategies emerge from deep historical, geographic, and cultural encoding. Judging them by a single universal standard often reflects ideological projection, not objective analysis.",
      "Cultural relativism, Huntington (civilizational paradigms), Wittgenstein (language games and worldview)"⟩),
    ("D4.4",
     ⟨"Cultural soft power is a vector of dominance",
      "Narratives travel through film, entertainment, humanitarian aid, and globalized education. Cultural output becomes a carrier of ideology, shaping aspiration, moral hierarchies, and political alignment. Empires no longer need missionaries—they have platforms.",
      "Gramsci (cultural hegemony), Joseph Nye (soft power), McLuhan (the medium is the message), Foucault (discursive regimes)"⟩),
    ("D4.5",
     ⟨"Culture encodes strategy",
      "Deep-seated cultural traits—whether collectivist or individualist, honor-based or legality-based—shape behavior in diplomacy, warfare, and negotiation. What seems irrational to outsiders may follow a coherent internal logic. Understanding this encoding is essential for accurate geopolitical or narrative interpretation.",
      "Cultural anthropology (Geertz), strategic theory, Hofstede\x27s dimensions of culture, structuralist ethnography"⟩)
   ]⟩

/-- PREMISE_LIBRARY["dimensions"]["D5"] from analytical_content.py. -/
def dimensionD5 : DimensionData :=
  ⟨"System Dynamics & Complexity",
   "Non-linearity, feedback loops, control systems, systemic risk",
   [
    ("D5.1",
     ⟨"Systems behave through feedback, not intention",
      "Outcomes in complex systems are not directly caused by intentions but emerge from interactions between variables, delays, and feedback loops (both positive and negative). Even rational actors are swept into patterns beyond their awareness or control. Linear explanations almost always miss the real cause.",
      "Cybernetics (Wiener), systems thinking (Meadows, Senge), complexity theory"⟩),
    ("D5.2",
     ⟨"Fragile systems suppress dissent",
      "When systems lack flexibility or redundancy, they tighten control in response to perceived threats. Repression is not always ideological—it is often a survival reflex in systems approaching failure. The more brittle the system, the more it fears even small disruptions.",
      "Taleb (fragility vs. antifragility), systems failure analysis, totalitarianism studies (Arendt)"⟩),
    ("D5.3",
     ⟨"Stability depends on controlled transparency",
      "No system can operate in full opacity—or in full daylight. Long-term resilience often requires a managed flow of visibility: enough to maintain legitimacy, but not so much that its contradictions become uncontrollable. \"Openness\" is always calibrated.",
      "Habermas (legitimacy through discourse), realist governance theory, sociological systems theory (Luhmann)"⟩),
    ("D5.4",
     ⟨"Self-correction requires pressure valves",
      "Resilient systems create mechanisms of controlled release: courts, protests, satire, journalism. When these are co-opted or blocked, pressure accumulates and can explode. Soft opposition is a structural necessity, not a luxury.",
      "Political sociology, authoritarian resilience studies, psycho-political tension models"⟩),
    ("D5.5",
     ⟨"Narratives are the software of systems",
      "The shared stories people believe about their system (e.g. meritocracy, unity, threat) enable it to function. When narratives degrade, the system\x27s behavioral code becomes corrupted. Crises of legitimacy are often preceded by narrative entropy.",
      "Constructivism, Arendt (truth and politics), post-structuralism, semiotics"⟩)
   ]⟩

/-- PREMISE_LIBRARY["dimensions"]["D6"] from analytical_content.py. -/
def dimensionD6 : DimensionData :=
  ⟨"Ethics & Judgment",
   "Moral framing, ambiguity, pluralism",
   [
    ("D6.1",
     ⟨"Multiple value systems can be valid within their own logic",
      "Different ethical traditions—religious, cultural, strategic—can produce conflicting judgments without either being objectively false. What is \"just\" in one worldview may be \"barbaric\" in another. Ethical analysis requires context, not universalization.",
      "Moral relativism, anthropological pluralism, Alasdair MacIntyre"⟩),
    ("D6.2",
     ⟨"Moral certainty often masks geopolitical or institutional interests",
      "The language of \"values\" and \"human rights\" is frequently used to cloak strategic motives. Claiming virtue becomes a tool of leverage, especially when paired with sanctions, military action, or selective outrage.",
      "Critical theory, realpolitik ethics, postcolonial critique"⟩),
    ("D6.3",
     ⟨"The oppressed often inherit and reenact the logic of the oppressor",
      "Those who once suffered injustice may replicate coercive systems when power shifts. Victimhood does not guarantee virtue, and sympathy should never replace structural scrutiny.",
      "Frantz Fanon, Nietzschean critique of resentment, historical cycles of violence"⟩),
    ("D6.4",
     ⟨"Democratic decay often originates from the people, not just elites",
      "While corruption and manipulation matter, mass apathy, fear, and ignorance can also erode democratic life. When the public ceases to demand virtue, representation becomes spectacle.",
      "Tocqueville, democratic realism, civic republicanism"⟩),
    ("D6.5",
     ⟨"Political virtue is often the retroactive moralization of success",
      "History is written by winners, and legitimacy is often post-facto storytelling. What is framed as noble leadership may be little more than effective domination rewritten in moral terms.",
      "Foucault, Arendt (\"success as the ultimate justification\"), genealogical ethics"⟩),
    ("D6.6",
     ⟨"Hypocrisy is not an anomaly, but a structural feature of moral discourse",
      "Nations, institutions, and individuals often fail to meet the standards they preach—not merely from weakness, but because moral language is strategically deployed to manage perception, not guide consistent behavior. Hypocrisy persists because it works.",
      "Cynical realism, Machiavelli, Reinhold Niebuhr (\"moral man, immoral society\"), Baudrillard (simulacra of virtue)"⟩)
   ]⟩

/-- PREMISE_LIBRARY["dimensions"]["D7"] from analytical_content.py. -/
def dimensionD7 : DimensionData :=
  ⟨"Temporal Awareness & Strategic Foresight",
   "Historical cycles, long-term risk, delayed consequence",
   [
    ("D7.1",
     ⟨"Historical context is essential for understanding motivation",
      "Current decisions reflect accumulated trauma, inherited grievances, and strategic memory. Nations and actors often pursue goals laid down by events decades—or centuries—earlier. Analyzing current actions without their temporal roots produces shallow or false interpretations.",
      "Historical institutionalism, psychohistory, longue durée (Braudel), postcolonial theory"⟩),
    ("D7.2",
     ⟨"Delayed outcomes are often more impactful than immediate ones",
      "What seems like success in the short term may erode legitimacy or stability over time. Systems have latency, and interventions often unleash feedback loops that manifest far later. Strategic judgment demands temporal patience.",
      "Systems theory, unintended consequences, deep forecasting models"⟩),
    ("D7.3",
     ⟨"History rewards the effective, not the grateful",
      "There is no durable currency of gratitude in international relations or political history. Alliances shift based on interest, not memory. Attempts to extract loyalty based on past aid or sacrifice usually fail.",
      "Realism in IR, Machiavellian statecraft, historical patterns of alliance reversal"⟩),
    ("D7.4",
     ⟨"Civilizations rise and fall in cycles",
      "No system lasts forever. Civilizations experience arcs of emergence, dominance, stagnation, and collapse. Denial of this cycle leads to strategic complacency and hubris. Those who believe they are immune to decline are usually entering it.",
      "Toynbee, Spengler, cyclical history theory, political entropy models"⟩),
    ("D7.5",
     ⟨"The future is colonized by today\x27s narratives",
      "The stories we tell about the future—progress, collapse, justice, revenge—shape policy, science, investment, and war. Competing visions of the future often drive present action more than actual planning does.",
      "Strategic foresight, future studies, narrative theory, ideological projection"⟩),
    ("D7.6",
     ⟨"Strategic actors plan in decades; reactive actors respond in headlines",
      "Global competition rewards those who think beyond the electoral cycle or news cycle. Systems with long memory and long-range planning (e.g. intelligence agencies, imperial bureaucracies) shape outcomes more decisively than populist turbulence.",
      "Geostrategy, elite continuity theory, technocracy vs. populism"⟩),
    ("D7.7",
     ⟨"Delays between cause and effect conceal responsibility",
      "When consequences unfold years later, those who set events in motion often escape accountability. Strategic manipulation benefits from this delay, enabling actors to externalize blame while pursuing short-term gain.",
      "Moral hazard, plausible deniability, delayed causality in complex systems"⟩)
   ]⟩

/-- PREMISE_LIBRARY["dimensions"]["D8"] from analytical_content.py. -/
def dimensionD8 : DimensionData :=
  ⟨"Political Economy & Resource Power",
   "Capital flows, labor dynamics, ownership structures, resource control",
   [
    ("D8.1",
     ⟨"Economic power precedes and shapes political outcomes",
      "The distribution of capital, land, labor, and credit forms the invisible scaffolding beneath political institutions. Governance structures often emerge as reflections of dominant economic interests, whether feudal landowners, industrial capitalists, or technocratic financial elites. Ideological language tends to mask economic control mechanisms.",
      "Marxist base/superstructure theory, elite theory, oligarchic drift"⟩),
    ("D8.2",
     ⟨"Class remains a functional reality beneath changing labels",
      "Despite rhetorical progress or rebranding, societies continue to stratify along lines of control over productive assets. Whether under capitalism, state socialism, or mixed regimes, there is always a division between those who own, those who manage, and those who labor.",
      "Neo-Marxist analysis, Piketty\x27s wealth concentration, managerial capitalism critiques"⟩),
    ("D8.3",
     ⟨"Resource dependencies define strategic behavior",
      "Access to energy, rare materials, food, and water determines national security and foreign policy alignment. States will violate ethical norms or destabilize entire regions to secure such resources or protect access routes (e.g., pipelines, shipping lanes, digital infrastructure).",
      "Resource geopolitics, petrostate theory, dependency theory"⟩),
    ("D8.4",
     ⟨"Debt is a tool of control, not just finance",
      "Public and private debt create long-term dependency structures. Lenders can shape policy, impose austerity, and dictate reforms under the guise of fiscal discipline or development assistance. Sovereign debt crisis is often a political weapon, not just an economic accident.",
      "IMF/World Bank critiques, neocolonial analysis, Graeber\x27s \"Debt: The First 5,000 Years\""⟩),
    ("D8.5",
     ⟨"Technology is not neutral—it encodes power relations",
      "Digital platforms, algorithmic finance, and data monopolies allow unprecedented economic concentration. The illusion of decentralization often masks deeper centralization in the hands of those who build and own the infrastructure.",
      "Platform capitalism, surveillance economy, Shoshana Zuboff\x27s work on data power"⟩),
    ("D8.6",
     ⟨"Labor is globalized, devalued, and fragmented",
      "In a globalized economy, labor no longer negotiates from a national base. Jobs are offshored, gigified, or automated. As collective bargaining weakens, workers become interchangeable, and economic insecurity becomes a tool of control. \"Freedom of labor\" often means freedom from protection.",
      "Global labor studies, Braverman\x27s deskilling theory, Standing\x27s \"precariat\" class"⟩),
    ("D8.7",
     ⟨"Automation shifts power from labor to capital",
      "As machines replace human labor, value concentrates around intellectual property, infrastructure ownership, and data extraction. Automation doesn\x27t eliminate labor—it transforms it into invisible maintenance and algorithmic obedience. The promise of liberation often masks deeper alienation.",
      "Marx\x27s \"general intellect,\" post-Fordist theory, AI-driven labor economics"⟩),
    ("D8.8",
     ⟨"Supply chains are strategic weapons",
      "Global trade networks are not just economic artifacts—they are levers of pressure in geopolitical struggle. Countries that control logistics chokepoints, manufacturing hubs, or rare-earth refining can extract political concessions without firing a shot. Resilience narratives often hide weaponization strategies.",
      "Global supply chain theory, U.S.–China tech war, economic statecraft"⟩)
   ]⟩

/-- PREMISE_LIBRARY["dimensions"]: dimension id → dimension group. -/
def PREMISE_DIMENSIONS : List (String × DimensionData) :=
  [("D1", dimensionD1), ("D2", dimensionD2), ("D3", dimensionD3), ("D4", dimensionD4), ("D5", dimensionD5), ("D6", dimensionD6), ("D7", dimensionD7), ("D8", dimensionD8)]

/-!
Input classifier: `RAIWrapper` of rai_wrapper.py (`_clean_input`,
`_classify_input`, `_detect_style_flags`, `_measure_emotional_charge`,
`_assess_complexity`, `_detect_topics`, `_suggest_premises`,
`_normalize_input`).
-/

/-- `InputType` of rai_wrapper.py. -/
inductive InputType where
  | factual_claim
  | narrative
  | system_premise
  | mixed
  | question
deriving DecidableEq, Repr

/-- The `.value` of each `InputType` enum member. -/
def InputType.value : InputType → String
  | .factual_claim => "factual_claim"
  | .narrative => "narrative"
  | .system_premise => "system_premise"
  | .mixed => "mixed"
  | .question => "question"

/-- `RAIInput` of rai_wrapper.py. -/
structure RAIInput where
  raw_input : String
  cleaned_input : String
  input_type : InputType
  style_flags : List String
  emotional_charge : Nat
  complexity_score : Nat
  detected_topics : List String
  suggested_premises : List String
deriving DecidableEq, Repr

/-- `_clean_input`: collapse runs of 2+ exclamation marks, then of 2+
question marks, then every whitespace run to a single space, then strip. -/
def cleanInput (raw_input : String) : String :=
  let l := raw_input.toList
  let l := squeezeBy (· = '!') l
  let l := squeezeBy (· = '?') l
  let l := (squeezeBy pyWs l).map fun c => if pyWs c then ' ' else c
  ⟨stripList l⟩

/-- Word boundary `\b` holds before position `i`. -/
def boundaryAt (l : List Char) (i : Nat) : Bool :=
  i = 0 || !wordChar (l.getD (i - 1) ' ')

/-- Word boundary `\b` holds after the character at position `i - 1`,
i.e. position `i` is the end of the text or a non-word character. -/
def boundaryAfter (l : List Char) (i : Nat) : Bool :=
  l.length ≤ i || !wordChar (l.getD i ' ')

/-- `re.search` existence for the `_classify_input` date pattern
`\b(on|in|at|during)\s+\d\x7b4\x7d|\b(yesterday|today|recently)` with
IGNORECASE, applied to the lowered text.  The greedy `\s+` cannot affect
matchability because `\s` and `\d` are disjoint, so the digits must start at
the first non-whitespace position after the preposition. -/
def dateAnchorSearch (low : List Char) : Bool :=
  ((List.range (low.length + 1)).any fun i =>
    boundaryAt low i &&
    (["on", "in", "at", "during"].any fun w =>
      w.toList.isPrefixOf (low.drop i) &&
      (let rest := (low.drop i).drop w.length
       let wsLen := (rest.takeWhile pyWs).length
       decide (1 ≤ wsLen) && decide (((rest.drop wsLen).take 4).length = 4) &&
       ((rest.drop wsLen).take 4).all Char.isDigit)))
  ||
  ((List.range (low.length + 1)).any fun i =>
    boundaryAt low i &&
    (["yesterday", "today", "recently"].any fun w => w.toList.isPrefixOf (low.drop i)))

/-- `_classify_input`: ordered checks, first match wins. -/
def classifyInput (input_text : String) : InputType :=
  let low := pyLower input_text
  if pyContains input_text "?" ||
      (["what", "why", "how", "when", "where", "who"].any fun w => pyStartsWith low w) then
    .question
  else if dateAnchorSearch low.toList then
    .factual_claim
  else if ["system", "power", "control", "government", "elite", "conspiracy"].any
      (fun k => pyContains low k) then
    .system_premise
  else if ["story", "narrative", "because", "therefore", "led to", "caused"].any
      (fun k => pyContains low k) then
    .narrative
  else
    .mixed

/-- `re.search` existence for `\b(gonna|wanna|gotta|dunno)\b` (IGNORECASE). -/
def slangWordSearch (low : List Char) : Bool :=
  (List.range (low.length + 1)).any fun i =>
    boundaryAt low i &&
    (["gonna", "wanna", "gotta", "dunno"].any fun w =>
      w.toList.isPrefixOf (low.drop i) && boundaryAfter low (i + w.length))

/-- `re.search` existence for `\b\w+n\x27t\b` (IGNORECASE): a boundary, one or
more word characters, the literal n\x27t, then a boundary. -/
def contractionSearch (low : List Char) : Bool :=
  (List.range (low.length + 1)).any fun q =>
    boundaryAt low q &&
    ((List.range (low.length + 1)).any fun k =>
      decide (1 ≤ k) && decide (((low.drop q).take k).length = k) &&
      ((low.drop q).take k).all wordChar &&
      ['n', '\x27', 't'].isPrefixOf (low.drop (q + k)) &&
      boundaryAfter low (q + k + 3))

/-- `_detect_style_flags`: slang, hyperbole, mockery, emotional — appended in
that order. -/
def detectStyleFlags (raw_input : String) : List String :=
  let low := pyLower raw_input
  let flags : List String := []
  let flags := if slangWordSearch low.toList || contractionSearch low.toList then
    flags ++ ["slang"] else flags
  let flags := if ["always", "never", "everyone", "nobody", "everything", "nothing"].any
      (fun w => pyContains low w) then flags ++ ["hyperbole"] else flags
  let flags := if pyContains raw_input "\"" || pyContains low "so-called" then
    flags ++ ["mockery"] else flags
  let flags := if ["outrageous", "disgusting", "amazing", "terrible", "incredible"].any
      (fun w => pyContains low w) then flags ++ ["emotional"] else flags
  flags

/-- `_measure_emotional_charge` (1-5 scale). -/
def measureEmotionalCharge (raw_input : String) : Nat :=
  let charge := 1
  let charge := charge + min (pyCountChar raw_input '!') 2
  let charge :=
    if pyIsUpper raw_input then charge + 2
    else if (pyWords raw_input).any pyIsUpper then charge + 1
    else charge
  let charge :=
    if ["hate", "love", "disgust", "outrage", "fury", "ecstasy"].any
        (fun w => pyContains (pyLower raw_input) w) then charge + 1
    else charge
  min charge 5

/-- `_assess_complexity` (1-5 scale). -/
def assessComplexity (input_text : String) : Nat :=
  let complexity := 1
  let complexity := if 200 < input_text.length then complexity + 1 else complexity
  let complexity := if 500 < input_text.length then complexity + 1 else complexity
  let complexity := if 2 < pyCountChar input_text '.' then complexity + 1 else complexity
  let complexity := if ["geopolitical", "systemic", "institutional", "asymmetric"].any
      (fun t => pyContains (pyLower input_text) t) then complexity + 1 else complexity
  min complexity 5

/-- `_load_premise_keywords` of rai_wrapper.py (dict insertion order kept). -/
def premiseKeywords : List (String × List String) :=
  [("power_governance", ["election", "democracy", "government", "power", "politics",
      "legitimacy", "authority", "regime", "transition"]),
   ("geopolitical", ["war", "conflict", "military", "sanctions", "alliance",
      "geopolitics", "international", "nuclear", "deterrence"]),
   ("information", ["media", "propaganda", "censorship", "information",
      "narrative", "news", "platform", "algorithm"]),
   ("civilization", ["culture", "identity", "memory", "trauma", "history",
      "civilization", "values", "heritage", "legacy"]),
   ("systems", ["complexity", "feedback", "system", "control", "stability",
      "fragility", "resilience", "transparency"]),
   ("ethics", ["moral", "ethics", "justice", "values", "virtue",
      "rights", "good", "evil", "responsibility"]),
   ("temporal", ["history", "future", "time", "cycles", "evolution",
      "change", "development", "progress", "decline"]),
   ("economy", ["economic", "money", "capital", "wealth", "class",
      "labor", "debt", "resources", "trade", "market"])]

/-- `_detect_topics`: every domain (in table order) one of whose keywords is a
substring of the lowered text. -/
def detectTopics (input_text : String) : List String :=
  (premiseKeywords.filter fun p => p.2.any fun k => pyContains (pyLower input_text) k).map (·.1)

/-- The `premise_map` of `_suggest_premises`. -/
def premiseMap : List (String × List String) :=
  [("power_governance", ["D1.1", "D1.2", "D1.3"]),
   ("geopolitical", ["D2.1", "D2.2", "D2.3", "D2.4"]),
   ("information", ["D3.1", "D3.2", "D3.3"]),
   ("civilization", ["D4.1", "D4.2", "D4.3"]),
   ("systems", ["D5.1", "D5.2", "D5.3"]),
   ("ethics", ["D6.1", "D6.2", "D6.3"]),
   ("temporal", ["D7.1", "D7.2", "D7.3"]),
   ("economy", ["D8.1", "D8.2", "D8.3"])]

/-- First-occurrence deduplication. -/
def dedupFirst (l : List String) : List String :=
  l.foldl (fun acc x => if acc.contains x then acc else acc ++ [x]) []

/-- `_suggest_premises`.  The Python ends with `list(set(premises))`, whose
order is unspecified; modelled as first-occurrence deduplication (no claim in
this development depends on the order of this field). -/
def suggestPremises (topics : List String) : List String :=
  dedupFirst (topics.foldl (fun acc t => acc ++ ((lookupAssoc premiseMap t).getD [])) [])

/-- `_normalize_input`: the classify operation.  It is a total function of the
raw text — the Python body contains no emptiness check and raises nothing. -/
def normalizeInput (raw_input : String) : RAIInput :=
  let cleaned := cleanInput raw_input
  { raw_input := raw_input
    cleaned_input := cleaned
    input_type := classifyInput cleaned
    style_flags := detectStyleFlags raw_input
    emotional_charge := measureEmotionalCharge raw_input
    complexity_score := assessComplexity cleaned
    detected_topics := detectTopics cleaned
    suggested_premises := suggestPremises (detectTopics cleaned) }

/-!
Selection engine: `AnalyticalEngine` of analytical_engine.py
(`_determine_entry_point`, `_select_modules_semantic`,
`_build_analysis_components`, `_get_module_data`, `_get_premise_data`,
`_generate_execution_order`, `_generate_rationale`, `_fallback_selection`,
`select_analysis_components`).
-/

/-- `AnalysisComponent` of analytical_engine.py; an anchored premise entry is
the dict `\x7bid, title, content\x7d` built in `_build_analysis_components`. -/
structure PremiseRef where
  id : String
  title : String
  content : String
deriving DecidableEq, Repr

/-- `AnalysisComponent` of analytical_engine.py. -/
structure AnalysisComponent where
  module_id : String
  module_name : String
  module_purpose : String
  core_questions : List String
  philosophical_anchoring : List String
  anchored_premises : List PremiseRef
  wisdom_injected : List String
deriving DecidableEq, Repr

/-- `AnalysisSelection` of analytical_engine.py. -/
structure AnalysisSelection where
  entry_point : String
  components : List AnalysisComponent
  execution_order : List String
  total_modules : Nat
  total_premises : Nat
  selection_rationale : String
deriving DecidableEq, Repr

/-- `_determine_entry_point`: keyword-presence scores plus category and
complexity bonuses, ties resolved system > narrative > fact. -/
def determineEntryPoint (rai_input : RAIInput) : String :=
  let text := pyLower rai_input.cleaned_input
  let system_score := (["power", "control", "system", "government", "geopolitical",
      "strategic"].filter (fun w => pyContains text w)).length
  let narrative_score := (["because", "therefore", "story", "narrative", "caused",
      "led to"].filter (fun w => pyContains text w)).length
  let fact_score := (["evidence", "proof", "confirmed", "reported", "data",
      "study"].filter (fun w => pyContains text w)).length
  let system_score := if rai_input.input_type.value = "system_premise" then system_score + 2
    else system_score
  let narrative_score := if rai_input.input_type.value = "narrative" then narrative_score + 2
    else narrative_score
  let fact_score := if rai_input.input_type.value = "factual_claim" then fact_score + 2
    else fact_score
  let system_score := if 4 ≤ rai_input.complexity_score then system_score + 1 else system_score
  if max narrative_score fact_score ≤ system_score then "system"
  else if fact_score ≤ narrative_score then "narrative"
  else "fact"

/-- The `type_modules` table of `_select_modules_semantic`. -/
def typeModules : List (String × List String) :=
  [("factual_claim", ["FL-1", "FL-8", "FL-3", "FL-2"]),
   ("narrative", ["NL-1", "NL-2", "NL-3", "NL-4"]),
   ("system_premise", ["SL-1", "SL-2", "SL-4", "SL-8"]),
   ("mixed", ["FL-1", "NL-1", "SL-1", "FL-8"])]

/-- The `topic_modules` table of `_select_modules_semantic`. -/
def topicModules : List (String × List String) :=
  [("geopolitical", ["SL-1", "SL-4", "FL-7", "SL-8", "NL-4"]),
   ("information", ["FL-2", "FL-3", "SL-8", "FL-9", "CL-4"]),
   ("power_governance", ["SL-1", "SL-2", "CL-4", "CL-5"]),
   ("systems", ["SL-6", "SL-8", "CL-2", "SL-9"]),
   ("economy", ["SL-1", "SL-2", "FL-4", "FL-7"]),
   ("cultural", ["NL-4", "NL-5", "SL-3", "CL-3"])]

/-- Append each candidate not already selected (the repeated
`if module not in selected: selected.append(module)` loops). -/
def addNew (selected : List String) (candidates : List String) : List String :=
  candidates.foldl (fun acc m => if acc.contains m then acc else acc ++ [m]) selected

/-- The input-simplicity test of `_select_modules_semantic`'s final step:
complexity ≤ 2, emotional charge ≤ 2, no detected topics, and the input type
is `factual_claim`. -/
def simpleFactualInput (rai_input : RAIInput) : Bool :=
  rai_input.complexity_score ≤ 2 &&
  rai_input.emotional_charge ≤ 2 &&
  rai_input.detected_topics.isEmpty &&
  rai_input.input_type.value = "factual_claim"

/-- The `selected` list of `_select_modules_semantic` after the essential
module and the input-type row have been added. -/
def selectedAfterType (rai_input : RAIInput) : List String :=
  addNew ["CL-0"] ((lookupAssoc typeModules rai_input.input_type.value).getD
    ((lookupAssoc typeModules "mixed").getD []))

/-- `selected` after the per-topic rows. -/
def selectedAfterTopics (rai_input : RAIInput) : List String :=
  rai_input.detected_topics.foldl
    (fun acc topic => addNew acc ((lookupAssoc topicModules topic).getD []))
    (selectedAfterType rai_input)

/-- `selected` after the complexity-based additions. -/
def selectedAfterComplexity (rai_input : RAIInput) : List String :=
  if 4 ≤ rai_input.complexity_score then
    addNew (selectedAfterTopics rai_input) ["SL-8", "CL-2", "CL-3", "SL-9", "NL-3"]
  else selectedAfterTopics rai_input

/-- `selected` after the high-stakes additions. -/
def selectedAfterEmotion (rai_input : RAIInput) : List String :=
  if 4 ≤ rai_input.emotional_charge then
    addNew (selectedAfterComplexity rai_input) ["FL-7", "FL-9", "CL-4", "CL-5", "SL-3"]
  else selectedAfterComplexity rai_input

/-- `selected` after the fact-level coverage repair. -/
def selectedAfterFL (rai_input : RAIInput) : List String :=
  if ((selectedAfterEmotion rai_input).map (splitHead '-')).contains "FL" then
    selectedAfterEmotion rai_input
  else selectedAfterEmotion rai_input ++ ["FL-1"]

/-- `selected` after the narrative-level coverage repair. -/
def selectedAfterNL (rai_input : RAIInput) : List String :=
  if ((selectedAfterFL rai_input).map (splitHead '-')).contains "NL" then
    selectedAfterFL rai_input
  else selectedAfterFL rai_input ++ ["NL-1"]

/-- `selected` after the system-level coverage repair: the full pool before
the final simple-input truncation. -/
def selectedAfterSL (rai_input : RAIInput) : List String :=
  if ((selectedAfterNL rai_input).map (splitHead '-')).contains "SL" then
    selectedAfterNL rai_input
  else selectedAfterNL rai_input ++ ["SL-1"]

/-- `_select_modules_semantic`: the successive `selected` states above, then
the simple-input truncation.  Both `analysis_mode` and `max_modules` are
parameters of the Python function that its body never reads. -/
def selectModulesSemantic (rai_input : RAIInput) (analysis_mode : String)
    (max_modules : Nat) : List String :=
  let _ := analysis_mode
  let _ := max_modules
  if simpleFactualInput rai_input then (selectedAfterSL rai_input).take 6
  else selectedAfterSL rai_input

/-- The full candidate module pool of spec §4.2 steps 2-3 (pool construction
and level-coverage repair) before any mode-based sizing, stated for comparison
with `selectModulesSemantic` (spec-side definition of "the full pool"). -/
def candidatePool (rai_input : RAIInput) : List String :=
  let selected := ["CL-0"]
  let type_specific := (lookupAssoc typeModules rai_input.input_type.value).getD
    ((lookupAssoc typeModules "mixed").getD [])
  let selected := addNew selected type_specific
  let selected := rai_input.detected_topics.foldl
    (fun acc topic => addNew acc ((lookupAssoc topicModules topic).getD [])) selected
  let selected := if 4 ≤ rai_input.complexity_score then
    addNew selected ["SL-8", "CL-2", "CL-3", "SL-9", "NL-3"] else selected
  let selected := if 4 ≤ rai_input.emotional_charge then
    addNew selected ["FL-7", "FL-9", "CL-4", "CL-5", "SL-3"] else selected
  let levels_present := selected.map (splitHead '-')
  let selected := if levels_present.contains "FL" then selected else selected ++ ["FL-1"]
  let levels_present := selected.map (splitHead '-')
  let selected := if levels_present.contains "NL" then selected else selected ++ ["NL-1"]
  let levels_present := selected.map (splitHead '-')
  if levels_present.contains "SL" then selected else selected ++ ["SL-1"]

/-- `_get_module_data`: split the id at the dash, look the level group up in
MODULE_LIBRARY, then the id in that group's modules. -/
def getModuleData (module_id : String) : Option ModuleData :=
  match lookupAssoc MODULE_LIBRARY (splitHead '-' module_id) with
  | some group => lookupAssoc group.modules module_id
  | none => none

/-- `_get_premise_data`: split the id at the dot, look the dimension up in
PREMISE_LIBRARY["dimensions"], then the id in that dimension's premises. -/
def getPremiseData (premise_id : String) : Option PremiseData :=
  match lookupAssoc PREMISE_DIMENSIONS (splitHead '.' premise_id) with
  | some dim => lookupAssoc dim.premises premise_id
  | none => none

/-- `_build_analysis_components`: modules missing from the library are skipped
with a warning; each anchoring id is resolved through `_get_premise_data` and
kept only when it resolves (a resolved premise dict is always non-empty, so
Python truthiness equals resolution success). -/
def buildAnalysisComponents (module_ids : List String) : List AnalysisComponent :=
  module_ids.filterMap fun module_id =>
    (getModuleData module_id).map fun module_data =>
      { module_id := module_id
        module_name := module_data.name
        module_purpose := module_data.purpose
        core_questions := module_data.core_questions
        philosophical_anchoring := module_data.philosophical_anchoring
        anchored_premises := module_data.philosophical_anchoring.filterMap fun premise_id =>
          (getPremiseData premise_id).map fun premise_data =>
            { id := premise_id
              title := premise_data.title
              content := premise_data.content }
        wisdom_injected := module_data.wisdom_injected }

/-- `_generate_execution_order`: CL-0 first when present, the remaining CL
modules sorted, then the three content levels (each sorted with Python string
order) in the entry-point-dependent sequence. -/
def generateExecutionOrder (components : List AnalysisComponent)
    (entry_point : String) : List String :=
  let ids := components.map (·.module_id)
  let cl_modules := ids.filter (fun m => pyStartsWith m "CL")
  let fl_modules := ids.filter (fun m => pyStartsWith m "FL")
  let nl_modules := ids.filter (fun m => pyStartsWith m "NL")
  let sl_modules := ids.filter (fun m => pyStartsWith m "SL")
  let order := if cl_modules.contains "CL-0" then ["CL-0"] else []
  let cl_rest := if cl_modules.contains "CL-0" then cl_modules.erase "CL-0" else cl_modules
  let order := order ++ pySorted cl_rest
  if entry_point = "system" then
    order ++ pySorted sl_modules ++ pySorted nl_modules ++ pySorted fl_modules
  else if entry_point = "narrative" then
    order ++ pySorted nl_modules ++ pySorted fl_modules ++ pySorted sl_modules
  else
    order ++ pySorted fl_modules ++ pySorted nl_modules ++ pySorted sl_modules

/-- The per-level tallies of `_generate_rationale` (dict built in component
order, counts incremented in place). -/
def levelCounts (components : List AnalysisComponent) : List (String × Nat) :=
  components.foldl
    (fun acc comp =>
      let level := splitHead '-' comp.module_id
      if acc.any (fun p => p.1 = level) then
        acc.map (fun p => if p.1 = level then (p.1, p.2 + 1) else p)
      else acc ++ [(level, 1)])
    []

/-- Total anchored premises over the components
(`sum(len(c.anchored_premises) for c in components)`). -/
def totalPremises (components : List AnalysisComponent) : Nat :=
  (components.map (fun c => c.anchored_premises.length)).sum

/-- `_generate_rationale`: the parts list joined with ". " and closed with ".". -/
def generateRationale (rai_input : RAIInput) (components : List AnalysisComponent)
    (analysis_mode : String) : String :=
  let parts := ["Input classified as " ++ rai_input.input_type.value ++
    " with complexity " ++ toString rai_input.complexity_score ++ "/5"]
  let parts := if rai_input.detected_topics.isEmpty then parts
    else parts ++ ["Detected topics: " ++ pyJoin ", " rai_input.detected_topics]
  let level_summary := pyJoin ", "
    ((levelCounts components).map (fun p => p.1 ++ "=" ++ toString p.2))
  let parts := parts ++ ["Selected " ++ toString components.length ++ " modules (" ++
    level_summary ++ ") for " ++ analysis_mode ++ " analysis"]
  let parts := if totalPremises components = 0 then parts
    else parts ++ ["Extracted " ++ toString (totalPremises components) ++
      " anchored premises for philosophical depth"]
  pyJoin ". " parts ++ "."

/-- `_fallback_selection`: the deterministic minimal selection used by the
`except` branch of `select_analysis_components` (the `rai_input` argument is
unused by the Python body). -/
def fallbackSelection (rai_input : RAIInput) : AnalysisSelection :=
  let _ := rai_input
  let fallback_modules := ["CL-0", "FL-1", "NL-1", "SL-1"]
  let components := fallback_modules.filterMap fun module_id =>
    (getModuleData module_id).map fun module_data =>
      { module_id := module_id
        module_name := module_data.name
        module_purpose := module_data.purpose
        core_questions := module_data.core_questions
        philosophical_anchoring := []
        anchored_premises := []
        wisdom_injected := [] }
  { entry_point := "fact"
    components := components
    execution_order := fallback_modules
    total_modules := components.length
    total_premises := 0
    selection_rationale := "Fallback selection due to processing error" }

/-- `select_analysis_components` (the `try` body; every step of the embedded
body is total, so the `except` branch — `_fallback_selection` above — is
unreachable in the model). -/
def selectAnalysisComponents (rai_input : RAIInput) (analysis_mode : String)
    (max_modules : Nat) : AnalysisSelection :=
  let entry_point := determineEntryPoint rai_input
  let selected_module_ids := selectModulesSemantic rai_input analysis_mode max_modules
  let components := buildAnalysisComponents selected_module_ids
  let execution_order := generateExecutionOrder components entry_point
  let rationale := generateRationale rai_input components analysis_mode
  { entry_point := entry_point
    components := components
    execution_order := execution_order
    total_modules := components.length
    total_premises := totalPremises components
    selection_rationale := rationale }

/-!
LLM dispatcher: `APIDispatcher.dispatch_to_llm` of api_dispatcher.py.  The
provider call of one attempt is modelled by an oracle
`call : Nat → Except String LLMResponse` giving the outcome of the n-th
attempt: `.ok` a response, `.error` the message of the exception the
provider helper raised (`_call_openai` and its siblings re-raise every
failure — rate limit, authentication, timeout, transient — as a generic
`Exception` with a message).  `time.sleep(2 ** attempt)` is modelled by
accumulating the slept durations; the wall-clock `response_time` field is
not modelled.
-/

/-- `ResponseStatus` of api_dispatcher.py. -/
inductive ResponseStatus where
  | success
  | error
  | timeout
  | rate_limited
  | invalid_key
deriving DecidableEq, Repr

/-- `LLMResponse` of api_dispatcher.py (without the wall-clock
`response_time` field). -/
structure LLMResponse where
  status : ResponseStatus
  content : String
  provider : String
  model : String
  tokens_used : Option Nat
  error_message : Option String
deriving DecidableEq, Repr

/-- `_build_model_aliases`: alias → (provider, model name). -/
def modelAliases : List (String × (String × String)) :=
  [("gpt-4", ("openai", "gpt-4")),
   ("gpt-4-turbo", ("openai", "gpt-4-turbo-preview")),
   ("gpt-3.5", ("openai", "gpt-3.5-turbo")),
   ("gpt-3.5-turbo", ("openai", "gpt-3.5-turbo")),
   ("deepseek", ("deepseek", "deepseek-chat")),
   ("deepseek-chat", ("deepseek", "deepseek-chat")),
   ("claude", ("anthropic", "claude-3-sonnet-20240229")),
   ("claude-3", ("anthropic", "claude-3-sonnet-20240229")),
   ("claude-sonnet", ("anthropic", "claude-3-sonnet-20240229")),
   ("gemini", ("gemini", "gemini-pro")),
   ("gemini-pro", ("gemini", "gemini-pro")),
   ("gemini-1.5", ("gemini", "gemini-1.5-pro-latest"))]

/-- The error `LLMResponse` built when the final retry attempt fails. -/
def attemptErrorResponse (provider model_name message : String) : LLMResponse :=
  { status := .error
    content := ""
    provider := provider
    model := model_name
    tokens_used := none
    error_message := some message }

/-- The `for attempt in range(max_retries)` loop of `dispatch_to_llm`,
recursing on the number of remaining iterations: every exception is caught
and retried uniformly; the last attempt's failure is returned as an error
response; each non-final failure sleeps `2 ^ attempt`. -/
def dispatchLoop (call : Nat → Except String LLMResponse)
    (provider model_name : String) (max_retries : Nat) :
    Nat → Nat → List Nat → Option LLMResponse × List Nat
  | 0, _, sleeps => (none, sleeps)
  | remaining + 1, attempt, sleeps =>
    match call attempt with
    | .ok response => (some response, sleeps)
    | .error e =>
      if attempt = max_retries - 1 then
        (some (attemptErrorResponse provider model_name e), sleeps)
      else
        dispatchLoop call provider model_name max_retries remaining (attempt + 1)
          (sleeps ++ [2 ^ attempt])

/-- The loop entered at `attempt`, with `max_retries - attempt` iterations
left (the whole loop is `dispatchAttempts call p m mx 0 []`).  With
`max_retries = 0` the loop body never runs and the Python function falls
through, returning `None`. -/
def dispatchAttempts (call : Nat → Except String LLMResponse)
    (provider model_name : String) (max_retries attempt : Nat)
    (sleeps : List Nat) : Option LLMResponse × List Nat :=
  dispatchLoop call provider model_name max_retries (max_retries - attempt) attempt sleeps

/-- `dispatch_to_llm`: alias resolution and provider-configuration checks are
immediately terminal; provider-call failures go through the retry loop.
`configured_providers` stands for the keys of `self.clients`. -/
def dispatchToLLM (call : Nat → Except String LLMResponse)
    (prompt model_alias : String) (max_retries : Nat)
    (configured_providers : List String) : Option LLMResponse × List Nat :=
  let _ := prompt
  match lookupAssoc modelAliases model_alias with
  | none =>
    (some { status := .error
            content := ""
            provider := "unknown"
            model := model_alias
            tokens_used := none
            error_message := some ("Unknown model alias: " ++ model_alias) }, [])
  | some (provider, model_name) =>
    if configured_providers.contains provider then
      dispatchAttempts call provider model_name max_retries 0 []
    else
      (some { status := .error
              content := ""
              provider := provider
              model := model_name
              tokens_used := none
              error_message := some ("Provider " ++ provider ++ " not configured") }, [])

/-!
Response formatter: `OutputParser` of output_parser_v2.py (`_format_text`,
`_format_line`, `_format_content`).
-/

/-- The backquote character of the `_format_text` code pattern. -/
def backtickChar : Char := Char.ofNat 96

/-- `re.sub` for the bold pattern of `_format_text` (two stars, one or more
non-star characters, two stars), leftmost non-overlapping occurrences, the
group wrapped in a strong element.  The greedy inner class cannot backtrack
into a star, so a match at a position exists exactly when the maximal non-star
run after the opening stars is non-empty and followed by two stars.  The
recursion consumes at least one character per step, so fuel equal to the
length of the list makes the fuel bound unreachable. -/
def boldSubAux : Nat → List Char → List Char
  | 0, l => l
  | fuel + 1, l =>
    match l with
    | [] => []
    | '*' :: '*' :: rest =>
      let inner := rest.takeWhile (· ≠ '*')
      match rest.dropWhile (· ≠ '*') with
      | '*' :: '*' :: rest2 =>
        if inner.isEmpty then '*' :: boldSubAux fuel ('*' :: rest)
        else "<strong>".toList ++ inner ++ "</strong>".toList ++ boldSubAux fuel rest2
      | _ => '*' :: boldSubAux fuel ('*' :: rest)
    | c :: rest => c :: boldSubAux fuel rest

/-- The bold substitution of `_format_text`. -/
def boldSub (l : List Char) : List Char := boldSubAux l.length l

/-- `re.sub` for the italic pattern of `_format_text` (one star, one or more
non-star characters, one star), with the same fuel scheme. -/
def italicSubAux : Nat → List Char → List Char
  | 0, l => l
  | fuel + 1, l =>
    match l with
    | [] => []
    | '*' :: rest =>
      let inner := rest.takeWhile (· ≠ '*')
      match rest.dropWhile (· ≠ '*') with
      | '*' :: rest2 =>
        if inner.isEmpty then '*' :: italicSubAux fuel rest
        else "<em>".toList ++ inner ++ "</em>".toList ++ italicSubAux fuel rest2
      | _ => '*' :: italicSubAux fuel rest
    | c :: rest => c :: italicSubAux fuel rest

/-- The italic substitution of `_format_text`. -/
def italicSub (l : List Char) : List Char := italicSubAux l.length l

/-- `re.sub` for the code pattern of `_format_text` (backquote, one or more
non-backquote characters, backquote), with the same fuel scheme. -/
def codeSubAux : Nat → List Char → List Char
  | 0, l => l
  | fuel + 1, l =>
    match l with
    | [] => []
    | c :: rest =>
      if c = backtickChar then
        let inner := rest.takeWhile (· ≠ backtickChar)
        match rest.dropWhile (· ≠ backtickChar) with
        | _ :: rest2 =>
          if inner.isEmpty then c :: codeSubAux fuel rest
          else "<code>".toList ++ inner ++ "</code>".toList ++ codeSubAux fuel rest2
        | [] => c :: codeSubAux fuel rest
      else c :: codeSubAux fuel rest

/-- The code substitution of `_format_text`. -/
def codeSub (l : List Char) : List Char := codeSubAux l.length l

/-- `_format_text`: the bold, italic and code substitutions in that order. -/
def formatText (text : String) : String :=
  ⟨codeSub (italicSub (boldSub text.toList))⟩

/-- The bullet characters of the `_format_line` pattern `^[-•*+]\s+`. -/
def bulletChars : List Char := ['-', '•', '*', '+']

/-- Match of `^[-•*+]\s+` against the (already stripped) line. -/
def bulletMatch (line : String) : Bool :=
  match line.toList with
  | c :: c2 :: _ => bulletChars.contains c && pyWs c2
  | _ => false

/-- `re.sub(r'^[-•*+]\s+', '', line)`: drop the bullet character and the
greedy whitespace run after it. -/
def stripBulletPrefix (line : String) : String :=
  ⟨(line.toList.drop 1).dropWhile pyWs⟩

/-- Match of `^\d+\.\s+` against the (already stripped) line. -/
def numberedMatch (line : String) : Bool :=
  let l := line.toList
  let digits := l.takeWhile Char.isDigit
  let rest := l.dropWhile Char.isDigit
  !digits.isEmpty &&
    (match rest with
     | '.' :: c :: _ => pyWs c
     | _ => false)

/-- `re.sub(r'^\d+\.\s+', '', line)`. -/
def stripNumberPrefix (line : String) : String :=
  ⟨((line.toList.dropWhile Char.isDigit).drop 1).dropWhile pyWs⟩

/-- The emphasis emoji alternatives of `_format_line`. -/
def emphasisEmojis : List String :=
  ["⚠️", "🔍", "📊", "✅", "❌", "💡", "🎯", "🧠", "📈"]

/-- `_format_line`: strip, then the ordered branch chain (headings, bullet
items, numbered items, emphasis lines, bold subheadings, quotes, paragraphs);
an empty stripped line yields the empty string. -/
def formatLine (line : String) : String :=
  let line := pyStrip line
  if line = "" then ""
  else if pyStartsWith line "###" then
    "<h3 class=\"rai-heading\">" ++ formatText (pyStrip (pyReplace line "###" "")) ++ "</h3>\n"
  else if pyStartsWith line "##" then
    "<h2 class=\"rai-section-title\">" ++ formatText (pyStrip (pyReplace line "##" "")) ++ "</h2>\n"
  else if pyStartsWith line "#" then
    "<h1 class=\"rai-main-title\">" ++ formatText (pyStrip (pyReplace line "#" "")) ++ "</h1>\n"
  else if bulletMatch line then
    "<li class=\"rai-bullet-item\">" ++ formatText (stripBulletPrefix line) ++ "</li>\n"
  else if numberedMatch line then
    "<li class=\"rai-numbered-item\">" ++ formatText (stripNumberPrefix line) ++ "</li>\n"
  else if emphasisEmojis.any (fun e => pyStartsWith line e) then
    "<p class=\"rai-emphasis\">" ++ formatText line ++ "</p>\n"
  else if pyStartsWith line "**" && pyEndsWith line "**" then
    "<h4 class=\"rai-subheading\">" ++
      formatText (pyStrip ⟨pyStripChars ['*'] line.toList⟩) ++ "</h4>\n"
  else if pyStartsWith line ">" then
    "<blockquote class=\"rai-quote\">" ++
      formatText (pyStrip ⟨line.toList.drop 1⟩) ++ "</blockquote>\n"
  else
    "<p class=\"rai-paragraph\">" ++ formatText line ++ "</p>\n"

/-- `_format_content`: split on newlines, format each line, skip empty
results, join and wrap in the container (with the f-string's exact
whitespace). -/
def formatContent (content : String) : String :=
  let lines := pySplit content '\n'
  let formatted_lines := (lines.map formatLine).filter (· ≠ "")
  "\n        <div class=\"rai-analysis-container\">\n            " ++
    pyJoin "" formatted_lines ++ "\n        </div>\n        "

/-!
Application-level input validation: `_validate_input` of app.py.  The
configured maximum length and the available model aliases are runtime data
(config and clients), passed as parameters.
-/

/-- Result of `_validate_input` (the returned dict's valid flag and error). -/
inductive ValidationResult where
  | valid
  | invalid (error : String)
deriving DecidableEq, Repr

/-- Python `repr` of a list of strings, as f-string interpolation prints it. -/
def pyListRepr (l : List String) : String :=
  "[" ++ pyJoin ", " (l.map (fun s => "\x27" ++ s ++ "\x27")) ++ "]"

/-- `_validate_input`: length cap, minimum stripped length 10, model
availability, mode membership — in that order. -/
def validateInput (user_input selected_llm analysis_mode : String)
    (max_length : Nat) (available_models : List String) : ValidationResult :=
  if max_length < user_input.length then
    .invalid ("Input too long. Maximum " ++ toString max_length ++ " characters allowed.")
  else if (pyStrip user_input).length < 10 then
    .invalid "Input too short. Please provide at least 10 characters."
  else if !available_models.contains selected_llm then
    .invalid ("Model \x27" ++ selected_llm ++ "\x27 not available. Available: " ++
      pyListRepr available_models)
  else
    let valid_modes : List String := ["quick", "guided", "expert", "full"]
    if !valid_modes.contains analysis_mode then
      .invalid ("Invalid analysis mode. Valid modes: " ++ pyListRepr valid_modes)
  else
    .valid

/-!
Theorems.
-/

/-- The classified input the wrapper produces for a short, simple, factual
dated sentence (complexity 1, emotional charge 1, no topics, factual claim):
the concrete witness input for the truncation claims. -/
def simpleFactualExample : RAIInput :=
  normalizeInput "It was reported in 2003 that a thing occurred."

/-- C1 counterexample: on a simple factual input the pool (7 candidates:
CL-0, the four factual-claim modules, and the NL-1/SL-1 coverage repairs) is
truncated to its first 6 entries even in "expert" mode, because
`_select_modules_semantic` never reads its `analysis_mode` parameter; so
"expert keeps the full candidate module pool for every classified input" is
false. -/
theorem c1_expert_truncates_counterexample :
    selectModulesSemantic simpleFactualExample "expert" 6 ≠ candidatePool simpleFactualExample ∧
    selectModulesSemantic simpleFactualExample "expert" 6 =
      ["CL-0", "FL-1", "FL-8", "FL-3", "FL-2", "NL-1"] ∧
    candidatePool simpleFactualExample =
      ["CL-0", "FL-1", "FL-8", "FL-3", "FL-2", "NL-1", "SL-1"] := by
  refine ⟨?_, ?_, ?_⟩ <;> decide

/-- C1 amended: in every mode (quick, guided and expert alike — the mode
parameter is ignored), the selection keeps the full candidate pool unless the
input is simple (complexity ≤ 2, emotional charge ≤ 2, no topic hints,
factual-claim category), in which case the pool is truncated to its first 6
entries by insertion order. -/
theorem c1_truncation_iff_simple (rai_input : RAIInput) (analysis_mode : String)
    (max_modules : Nat) :
    selectModulesSemantic rai_input analysis_mode max_modules =
      if simpleFactualInput rai_input then (candidatePool rai_input).take 6
      else candidatePool rai_input := rfl

/-- C3 counterexample: `_normalize_input` (the classify operation) contains no
emptiness check and no `InvalidInputError` (no such symbol exists in the
repository); on the empty string it succeeds and returns a classified record
with category mixed. -/
theorem c3_classify_empty_succeeds_counterexample :
    normalizeInput "" =
      { raw_input := ""
        cleaned_input := ""
        input_type := .mixed
        style_flags := []
        emotional_charge := 1
        complexity_score := 1
        detected_topics := []
        suggested_premises := [] } := by decide

/-- C3 amended: classify never fails — on the empty string it returns a
mixed-category record — and empty (more generally, shorter than 10 stripped
characters but within the length cap) inputs are instead rejected by the
application-level validator `_validate_input` of app.py before any selection
happens. -/
theorem c3_empty_input_rejected_by_validator :
    (∀ (user_input selected_llm analysis_mode : String) (max_length : Nat)
        (available_models : List String),
      user_input.length ≤ max_length →
      (pyStrip user_input).length < 10 →
      validateInput user_input selected_llm analysis_mode max_length available_models =
        .invalid "Input too short. Please provide at least 10 characters.") ∧
    (normalizeInput "").input_type = .mixed := by
  refine ⟨?_, by decide⟩
  intro user_input selected_llm analysis_mode max_length available_models hlen hshort
  unfold validateInput
  rw [if_neg (by omega), if_pos hshort]

/-- C5 counterexample: the Mariupol scenario input is classified as mixed, not
factual-claim — `_classify_input`'s date pattern needs a preposition directly
followed by a four-digit year ("on March 15, 2024" has the month in between)
and has no check for the word "confirmed". -/
theorem c5_mariupol_category_counterexample :
    (normalizeInput "On March 15, 2024, reports confirmed that 50 civilians were killed in Mariupol bombing.").input_type ≠ InputType.factual_claim := by
  decide

/-- C5 amended: for the Mariupol scenario input the category is mixed (not
factual-claim), the entry level is still fact (via the "confirmed" fact
keyword), and the selected modules are CL-0, FL-1, NL-1, SL-1, FL-8 — which
include the input-normalization module CL-0 and the fact-level modules FL-1
and FL-8 from the mixed-category lookup row. -/
theorem c5_mariupol_scenario :
    (normalizeInput "On March 15, 2024, reports confirmed that 50 civilians were killed in Mariupol bombing.").input_type = InputType.mixed ∧
    (selectAnalysisComponents (normalizeInput "On March 15, 2024, reports confirmed that 50 civilians were killed in Mariupol bombing.") "guided" 6).entry_point = "fact" ∧
    (selectAnalysisComponents (normalizeInput "On March 15, 2024, reports confirmed that 50 civilians were killed in Mariupol bombing.") "guided" 6).components.map (fun c => c.module_id) =
      ["CL-0", "FL-1", "NL-1", "SL-1", "FL-8"] ∧
    ((selectAnalysisComponents (normalizeInput "On March 15, 2024, reports confirmed that 50 civilians were killed in Mariupol bombing.") "guided" 6).components.map (fun c => c.module_id)).contains "CL-0" = true ∧
    ((selectAnalysisComponents (normalizeInput "On March 15, 2024, reports confirmed that 50 civilians were killed in Mariupol bombing.") "guided" 6).components.map (fun c => c.module_id)).contains "FL-1" = true := by
  refine ⟨?_, ?_, ?_, ?_, ?_⟩ <;> decide

/-- C8 counterexample: the fallback selection's rationale is the fixed string
"Fallback selection due to processing error", not the literal "fallback" the
claim states. -/
theorem c8_fallback_rationale_counterexample :
    (fallbackSelection simpleFactualExample).selection_rationale ≠ "fallback" ∧
    (fallbackSelection simpleFactualExample).selection_rationale =
      "Fallback selection due to processing error" := by
  refine ⟨?_, ?_⟩ <;> decide

/-- C8 amended: the fallback selection (the `except` branch of
`select_analysis_components`) is deterministic — independent of the input —
and consists of exactly 4 modules, the input-normalization module CL-0 plus
one module from each of the fact (FL-1), narrative (NL-1) and system (SL-1)
levels, with the fixed rationale "Fallback selection due to processing
error" and no premises. -/
theorem c8_fallback_shape (rai_input : RAIInput) :
    (fallbackSelection rai_input).total_modules = 4 ∧
    (fallbackSelection rai_input).components.map (fun c => c.module_id) =
      ["CL-0", "FL-1", "NL-1", "SL-1"] ∧
    (fallbackSelection rai_input).execution_order = ["CL-0", "FL-1", "NL-1", "SL-1"] ∧
    (fallbackSelection rai_input).entry_point = "fact" ∧
    (fallbackSelection rai_input).selection_rationale =
      "Fallback selection due to processing error" ∧
    (fallbackSelection rai_input).total_premises = 0 := by
  refine ⟨?_, ?_, ?_, ?_, ?_, ?_⟩ <;> rfl

/-- A successful response, used as the oracle's success value in the
dispatcher theorems. -/
def okResponse : LLMResponse :=
  { status := .success
    content := "ok"
    provider := "openai"
    model := "gpt-4"
    tokens_used := some 10
    error_message := none }

/-- Oracle whose first attempt raises the generic authentication-failure
exception that `_call_openai` produces, and whose second attempt succeeds. -/
def authThenOk : Nat → Except String LLMResponse :=
  fun attempt => if attempt = 0 then .error "OpenAI authentication failed" else .ok okResponse

/-- One unfolding step of the retry loop below the attempt cap, when the
current attempt succeeds. -/
theorem dispatchAttempts_step_ok (call : Nat → Except String LLMResponse)
    (p m : String) (mx a : Nat) (sleeps : List Nat) (r : LLMResponse)
    (h : a < mx) (hok : call a = .ok r) :
    dispatchAttempts call p m mx a sleeps = (some r, sleeps) := by
  have hrem : mx - a = (mx - (a + 1)) + 1 := by omega
  rw [dispatchAttempts, hrem, dispatchLoop, hok]

/-- One unfolding step of the retry loop below the attempt cap, when the
current attempt fails (with any message). -/
theorem dispatchAttempts_step_err (call : Nat → Except String LLMResponse)
    (p m : String) (mx a : Nat) (sleeps : List Nat) (e : String)
    (h : a < mx) (he : call a = .error e) :
    dispatchAttempts call p m mx a sleeps =
      if a = mx - 1 then (some (attemptErrorResponse p m e), sleeps)
      else dispatchAttempts call p m mx (a + 1) (sleeps ++ [2 ^ a]) := by
  have hrem : mx - a = (mx - (a + 1)) + 1 := by omega
  rw [dispatchAttempts, hrem, dispatchLoop, he]
  change (if a = mx - 1 then (some (attemptErrorResponse p m e), sleeps)
    else dispatchLoop call p m mx (mx - (a + 1)) (a + 1) (sleeps ++ [2 ^ a])) = _
  rcases Nat.decEq a (mx - 1) with hne | heq
  · rw [if_neg hne, if_neg hne]
    rfl
  · rw [if_pos heq, if_pos heq]

/-- The retry loop succeeds at the first attempt whose call succeeds, after
sleeping `2 ^ j` for each failed attempt `j` before it — whatever the failed
attempts' messages say. -/
theorem dispatchAttempts_ok_of (call : Nat → Except String LLMResponse) (p m : String) :
    ∀ (fuel a k : Nat) (sleeps : List Nat) (resp : LLMResponse) (mx : Nat),
      k - a ≤ fuel → a ≤ k → k < mx →
      (∀ j, a ≤ j → j < k → ∃ e, call j = .error e) →
      call k = .ok resp →
      dispatchAttempts call p m mx a sleeps =
        (some resp, sleeps ++ (List.range' a (k - a)).map (fun i => 2 ^ i)) := by
  intro fuel
  induction fuel with
  | zero =>
    intro a k sleeps resp mx hf hak hk herr hok
    have hka : k = a := by omega
    subst hka
    rw [dispatchAttempts_step_ok call p m mx k sleeps resp hk hok]
    simp
  | succ n ih =>
    intro a k sleeps resp mx hf hak hk herr hok
    by_cases hek : a = k
    · subst hek
      rw [dispatchAttempts_step_ok call p m mx a sleeps resp hk hok]
      simp
    · have hak' : a < k := lt_of_le_of_ne hak hek
      obtain ⟨e, he⟩ := herr a le_rfl hak'
      rw [dispatchAttempts_step_err call p m mx a sleeps e (by omega) he]
      rw [if_neg (by omega)]
      rw [ih (a + 1) k (sleeps ++ [2 ^ a]) resp mx (by omega) (by omega) hk
        (fun j hj1 hj2 => herr j (by omega) hj2) hok]
      rw [List.append_assoc]
      have hsplit : k - a = (k - (a + 1)) + 1 := by omega
      rw [hsplit, List.range'_succ a (k - (a + 1)) 1, List.map_cons, List.singleton_append]

/-- When every attempt up to the cap fails, the loop returns an error
response carrying the last attempt's message, after sleeping `2 ^ j` for
every attempt `j` before the last — again regardless of the messages. -/
theorem dispatchAttempts_err_of (call : Nat → Except String LLMResponse) (p m : String) :
    ∀ (fuel a : Nat) (sleeps : List Nat) (mx : Nat) (e : String),
      mx - 1 - a ≤ fuel → a ≤ mx - 1 → 0 < mx →
      (∀ j, a ≤ j → j < mx - 1 → ∃ e', call j = .error e') →
      call (mx - 1) = .error e →
      dispatchAttempts call p m mx a sleeps =
        (some (attemptErrorResponse p m e),
         sleeps ++ (List.range' a (mx - 1 - a)).map (fun i => 2 ^ i)) := by
  intro fuel
  induction fuel with
  | zero =>
    intro a sleeps mx e hf hale hmx herr hlast
    have hae : a = mx - 1 := by omega
    rw [hae]
    rw [dispatchAttempts_step_err call p m mx (mx - 1) sleeps e (by omega) hlast]
    rw [if_pos rfl]
    simp
  | succ n ih =>
    intro a sleeps mx e hf hale hmx herr hlast
    by_cases hae : a = mx - 1
    · rw [hae]
      rw [dispatchAttempts_step_err call p m mx (mx - 1) sleeps e (by omega) hlast]
      rw [if_pos rfl]
      simp
    · have ha' : a < mx - 1 := lt_of_le_of_ne hale hae
      obtain ⟨e', he'⟩ := herr a le_rfl ha'
      rw [dispatchAttempts_step_err call p m mx a sleeps e' (by omega) he']
      rw [if_neg hae]
      rw [ih (a + 1) (sleeps ++ [2 ^ a]) mx e (by omega) (by omega) hmx
        (fun j hj1 hj2 => herr j (by omega) hj2) hlast]
      rw [List.append_assoc]
      have hsplit : mx - 1 - a = (mx - 1 - (a + 1)) + 1 := by omega
      rw [hsplit, List.range'_succ a (mx - 1 - (a + 1)) 1, List.map_cons,
        List.singleton_append]

/-- C4 counterexample: an authentication failure on the first attempt is
retried, not surfaced — with `max_retries = 3`, the loop sleeps `2^0 = 1`
and returns the second attempt's success, so "AuthFailed ... surfaced to the
caller immediately as terminal failures without any retry" is false. -/
theorem c4_auth_failure_retried_counterexample :
    dispatchToLLM authThenOk "prompt" "gpt-4" 3 ["openai"] = (some okResponse, [1]) := by
  decide

/-- C4 amended: only the unknown-alias and unconfigured-provider failures are
immediately terminal; every provider-call failure — rate limit,
authentication, timeout or transient alike, since the provider helpers
re-raise them all as a generic exception — is retried uniformly with
exponential backoff (sleep `2 ^ attempt`), up to the configured cap, and the
last attempt's failure is then surfaced as a terminal error response. -/
theorem c4_retry_uniformity :
    (∀ (call : Nat → Except String LLMResponse) (prompt model_alias : String)
        (mx : Nat) (cfg : List String),
      lookupAssoc modelAliases model_alias = none →
      dispatchToLLM call prompt model_alias mx cfg =
        (some { status := .error, content := "", provider := "unknown", model := model_alias,
                tokens_used := none,
                error_message := some ("Unknown model alias: " ++ model_alias) }, [])) ∧
    (∀ (call : Nat → Except String LLMResponse) (prompt model_alias provider model_name : String)
        (mx : Nat) (cfg : List String),
      lookupAssoc modelAliases model_alias = some (provider, model_name) →
      cfg.contains provider = false →
      dispatchToLLM call prompt model_alias mx cfg =
        (some { status := .error, content := "", provider := provider, model := model_name,
                tokens_used := none,
                error_message := some ("Provider " ++ provider ++ " not configured") }, [])) ∧
    (∀ (call : Nat → Except String LLMResponse) (prompt model_alias provider model_name : String)
        (mx k : Nat) (cfg : List String) (resp : LLMResponse),
      lookupAssoc modelAliases model_alias = some (provider, model_name) →
      cfg.contains provider = true →
      k < mx →
      (∀ j, j < k → ∃ e, call j = .error e) →
      call k = .ok resp →
      dispatchToLLM call prompt model_alias mx cfg =
        (some resp, (List.range k).map (fun i => 2 ^ i))) ∧
    (∀ (call : Nat → Except String LLMResponse) (prompt model_alias provider model_name : String)
        (mx : Nat) (cfg : List String) (e : String),
      lookupAssoc modelAliases model_alias = some (provider, model_name) →
      cfg.contains provider = true →
      0 < mx →
      (∀ j, j < mx - 1 → ∃ e', call j = .error e') →
      call (mx - 1) = .error e →
      dispatchToLLM call prompt model_alias mx cfg =
        (some (attemptErrorResponse provider model_name e),
         (List.range (mx - 1)).map (fun i => 2 ^ i))) := by
  refine ⟨?_, ?_, ?_, ?_⟩
  · intro call prompt model_alias mx cfg hnone
    simp only [dispatchToLLM, hnone]
  · intro call prompt model_alias provider model_name mx cfg hsome hcfg
    simp only [dispatchToLLM, hsome, hcfg, Bool.false_eq_true, if_false]
  · intro call prompt model_alias provider model_name mx k cfg resp hsome hcfg hk herr hok
    simp only [dispatchToLLM, hsome, hcfg, if_true]
    rw [dispatchAttempts_ok_of call provider model_name k 0 k [] resp mx (by omega)
      (Nat.zero_le k) hk (fun j hj1 hj2 => herr j hj2) hok]
    rw [List.range_eq_range' k]
    simp
  · intro call prompt model_alias provider model_name mx cfg e hsome hcfg hmx herr hlast
    simp only [dispatchToLLM, hsome, hcfg, if_true]
    rw [dispatchAttempts_err_of call provider model_name (mx - 1) 0 [] mx e (by omega)
      (Nat.zero_le _) hmx (fun j hj1 hj2 => herr j hj2) hlast]
    rw [List.range_eq_range' (mx - 1)]
    simp

/-- `pyJoin` with the empty separator is plain concatenation. -/
theorem pyJoin_empty_sep : ∀ l : List String,
    pyJoin "" l = l.foldr (fun a b => a ++ b) "" := by
  intro l
  induction l with
  | nil => rfl
  | cons x xs ih =>
    cases xs with
    | nil => simp [pyJoin]
    | cons y ys =>
      have hstep : pyJoin "" (x :: y :: ys) = x ++ "" ++ pyJoin "" (y :: ys) := rfl
      rw [hstep, ih]
      simp [String.append_empty]

/-- Dropping empty strings does not change an empty-separator join. -/
theorem foldr_append_filter_ne_empty : ∀ l : List String,
    (l.filter (fun s => s ≠ "")).foldr (fun a b => a ++ b) "" =
      l.foldr (fun a b => a ++ b) "" := by
  intro l
  induction l with
  | nil => rfl
  | cons x xs ih =>
    by_cases hx : x = ""
    · subst hx
      rw [List.filter_cons_of_neg (by simp)]
      rw [ih, List.foldr_cons, String.empty_append]
    · rw [List.filter_cons_of_pos (by simp [hx])]
      rw [List.foldr_cons, List.foldr_cons, ih]

/-- A true bullet match exposes the first two characters: a bullet character
followed by whitespace. -/
theorem bulletMatch_elim (s : String) (h : bulletMatch s = true) :
    ∃ c c2 rest, s.toList = c :: c2 :: rest ∧
      bulletChars.contains c = true ∧ pyWs c2 = true := by
  rcases hsl : s.toList with _ | ⟨c, _ | ⟨c2, rest⟩⟩ <;> rw [bulletMatch, hsl] at h
  · simp at h
  · simp at h
  · exact ⟨c, c2, rest, rfl, Bool.and_eq_true_iff.mp h⟩

/-- A true numbered match makes the first character a digit. -/
theorem numberedMatch_first_digit (s : String) (h : numberedMatch s = true) :
    ∃ c cs, s.toList = c :: cs ∧ c.isDigit = true := by
  rcases hsl : s.toList with _ | ⟨c, cs⟩ <;> rw [numberedMatch, hsl] at h
  · simp at h
  · refine ⟨c, cs, rfl, ?_⟩
    by_cases hd : c.isDigit = true
    · exact hd
    · rw [List.takeWhile_cons, if_neg (by simp_all)] at h
      simp at h

/-- A string whose first character is not `#` does not start with a pattern
whose first character is `#`. -/
theorem startsWith_hash_false (s : String) (c : Char) (cs : List Char)
    (hsl : s.toList = c :: cs) (hc : c ≠ '#') (p : String)
    (hp : p.toList.headD ' ' = '#') : pyStartsWith s p = false := by
  rw [pyStartsWith, hsl]
  rcases hpl : p.toList with _ | ⟨p0, ps⟩
  · rw [hpl] at hp
    exact absurd hp (by decide)
  · rw [hpl] at hp
    simp only [List.headD_cons] at hp
    subst hp
    simp only [List.isPrefixOf, Bool.and_eq_false_iff]
    exact Or.inl (beq_eq_false_iff_ne.mpr (Ne.symm hc))

/-- C9 counterexample: two consecutive bullet lines are emitted as two bare
list-item elements — the output contains "<li" but no enclosing "<ul" or
"<ol" list element anywhere, so "wraps every maximal run of consecutive
bullet or numbered list lines into a single enclosing list element" is
false. -/
theorem c9_no_enclosing_list_counterexample :
    pyContains (formatContent "- a\n- b") "<li" = true ∧
    pyContains (formatContent "- a\n- b") "<ul" = false ∧
    pyContains (formatContent "- a\n- b") "<ol" = false ∧
    formatContent "- a\n- b" =
      "\n        <div class=\"rai-analysis-container\">\n            " ++
        "<li class=\"rai-bullet-item\">a</li>\n<li class=\"rai-bullet-item\">b</li>\n" ++
        "\n        </div>\n        " := by
  refine ⟨?_, ?_, ?_, ?_⟩ <;> decide

/-- C9 amended: the formatter preserves line order but wraps each line
independently — the output is the fixed container around the in-order
concatenation of the per-line renderings, and each bullet or numbered list
line becomes a single bare `li` element (no enclosing list element is ever
added); headings, emphasis lines, bold subheadings and blockquotes render per
their markers, and remaining non-empty lines become paragraphs. -/
theorem c9_per_line_formatting :
    (∀ content : String,
      formatContent content =
        "\n        <div class=\"rai-analysis-container\">\n            " ++
          pyJoin "" ((pySplit content '\n').map formatLine) ++
          "\n        </div>\n        ") ∧
    (∀ line : String, bulletMatch (pyStrip line) = true →
      formatLine line =
        "<li class=\"rai-bullet-item\">" ++
          formatText (stripBulletPrefix (pyStrip line)) ++ "</li>\n") ∧
    (∀ line : String, numberedMatch (pyStrip line) = true →
      formatLine line =
        "<li class=\"rai-numbered-item\">" ++
          formatText (stripNumberPrefix (pyStrip line)) ++ "</li>\n") := by
  refine ⟨?_, ?_, ?_⟩
  · intro content
    rw [formatContent]
    rw [pyJoin_empty_sep, pyJoin_empty_sep, foldr_append_filter_ne_empty]
  · intro line hb
    obtain ⟨c, c2, rest, hsl, hc, hw⟩ := bulletMatch_elim (pyStrip line) hb
    have hne : pyStrip line ≠ "" := by
      intro h
      rw [h] at hsl
      simp at hsl
    have hcm : c ∈ bulletChars := List.mem_of_elem_eq_true hc
    have hch : c ≠ '#' := by
      simp only [bulletChars, List.mem_cons, List.not_mem_nil, or_false] at hcm
      rcases hcm with rfl | rfl | rfl | rfl <;> decide
    simp only [formatLine]
    rw [if_neg hne,
      if_neg (by simp [startsWith_hash_false (pyStrip line) c (c2 :: rest) hsl hch "###" (by decide)]),
      if_neg (by simp [startsWith_hash_false (pyStrip line) c (c2 :: rest) hsl hch "##" (by decide)]),
      if_neg (by simp [startsWith_hash_false (pyStrip line) c (c2 :: rest) hsl hch "#" (by decide)]),
      if_pos hb]
  · intro line hn
    obtain ⟨c, cs, hsl, hd⟩ := numberedMatch_first_digit (pyStrip line) hn
    have hne : pyStrip line ≠ "" := by
      intro h
      rw [h] at hsl
      simp at hsl
    have hch : c ≠ '#' := by
      intro h
      subst h
      exact absurd hd (by decide)
    have hnb : bulletMatch (pyStrip line) = false := by
      rw [bulletMatch, hsl]
      cases cs with
      | nil => rfl
      | cons c2 rest =>
        have hcb : bulletChars.contains c = false := by
          by_contra hcon
          simp only [Bool.not_eq_false] at hcon
          have hcm := List.mem_of_elem_eq_true hcon
          simp only [bulletChars, List.mem_cons, List.not_mem_nil, or_false] at hcm
          rcases hcm with rfl | rfl | rfl | rfl <;> exact absurd hd (by decide)
        change (bulletChars.contains c && pyWs c2) = false
        rw [hcb, Bool.false_and]
    simp only [formatLine]
    rw [if_neg hne,
      if_neg (by simp [startsWith_hash_false (pyStrip line) c cs hsl hch "###" (by decide)]),
      if_neg (by simp [startsWith_hash_false (pyStrip line) c cs hsl hch "##" (by decide)]),
      if_neg (by simp [startsWith_hash_false (pyStrip line) c cs hsl hch "#" (by decide)]),
      if_neg (by simp [hnb]), if_pos hn]

/-- C7: every anchored premise entry of every built component resolves to a
premise actually present in the Content Library and carries that premise's
real title and content; anchoring ids that do not resolve are silently
dropped — the entry list is exactly the resolution filter-map of the
module's anchoring ids, so no fabricated premise or library-absent id can
ever surface. -/
theorem c7_premises_resolve_or_drop (module_ids : List String)
    (c : AnalysisComponent) (hc : c ∈ buildAnalysisComponents module_ids)
    (p : PremiseRef) (hp : p ∈ c.anchored_premises) :
    (∃ premise_data : PremiseData, getPremiseData p.id = some premise_data ∧
      premise_data.title = p.title ∧ premise_data.content = p.content) ∧
    c.anchored_premises = c.philosophical_anchoring.filterMap (fun premise_id =>
      (getPremiseData premise_id).map (fun premise_data =>
        { id := premise_id
          title := premise_data.title
          content := premise_data.content })) := by
  obtain ⟨mid, _hmid, hbuild⟩ := List.mem_filterMap.mp hc
  obtain ⟨md, _hmd, hcomp⟩ := Option.map_eq_some'.mp hbuild
  subst hcomp
  simp only at hp ⊢
  constructor
  · obtain ⟨pid, _hpid, hres⟩ := List.mem_filterMap.mp hp
    obtain ⟨pd, hpd, hpref⟩ := Option.map_eq_some'.mp hres
    subst hpref
    exact ⟨pd, hpd, rfl, rfl⟩
  · trivial

/-- The component built for the input-normalization module CL-0 (used as the
concrete instance for the premise-resolution claims; its anchoring lists
D1.1, D1.4, D6.2, of which D1.4 is absent from the library and dropped). -/
def cl0Component : AnalysisComponent :=
  (buildAnalysisComponents ["CL-0"]).getD 0
    { module_id := ""
      module_name := ""
      module_purpose := ""
      core_questions := []
      philosophical_anchoring := []
      anchored_premises := []
      wisdom_injected := [] }

/-- The first anchored premise of the CL-0 component (the resolved D1.1). -/
def cl0FirstPremise : PremiseRef :=
  cl0Component.anchored_premises.getD 0 { id := "", title := "", content := "" }

/-- Witness for the premise-resolution theorem at the CL-0 component: its
first anchored premise resolves in the library, and its anchoring list
(D1.1, D1.4, D6.2) filter-maps to just the two resolvable entries — the
dangling id D1.4 is dropped. -/
theorem c7_premises_resolve_witness :
    (cl0Component ∈ buildAnalysisComponents ["CL-0"] ∧
      cl0FirstPremise ∈ cl0Component.anchored_premises) ∧
    ((∃ premise_data : PremiseData, getPremiseData cl0FirstPremise.id = some premise_data ∧
        premise_data.title = cl0FirstPremise.title ∧
        premise_data.content = cl0FirstPremise.content) ∧
      cl0Component.anchored_premises =
        cl0Component.philosophical_anchoring.filterMap (fun premise_id =>
          (getPremiseData premise_id).map (fun premise_data =>
            { id := premise_id
              title := premise_data.title
              content := premise_data.content }))) ∧
    cl0Component.philosophical_anchoring = ["D1.1", "D1.4", "D6.2"] ∧
    cl0Component.anchored_premises.map (fun p => p.id) = ["D1.1", "D6.2"] ∧
    getPremiseData "D1.4" = none :=
  ⟨⟨by decide, by decide⟩,
   c7_premises_resolve_or_drop ["CL-0"] cl0Component (by decide) cl0FirstPremise (by decide),
   by decide, by decide, by decide⟩

/-- Every module id the selection can ever draw from: the essential module,
the type and topic rows, the complexity and high-stakes sets, and the
level-coverage defaults of `_select_modules_semantic`. -/
def selectionUniverse : List String :=
  ["CL-0",
   "FL-1", "FL-8", "FL-3", "FL-2",
   "NL-1", "NL-2", "NL-3", "NL-4",
   "SL-1", "SL-2", "SL-4", "SL-8",
   "FL-7", "NL-5",
   "FL-9", "CL-4", "CL-5",
   "SL-6", "CL-2", "SL-9",
   "FL-4", "SL-3", "CL-3"]

/-- `addNew` keeps every element inside a common superset. -/
theorem addNew_subset {U : List String} :
    ∀ (cands sel : List String), (∀ x ∈ sel, x ∈ U) → (∀ x ∈ cands, x ∈ U) →
      ∀ x ∈ addNew sel cands, x ∈ U := by
  intro cands
  induction cands with
  | nil => exact fun sel hs _ x hx => hs x hx
  | cons c cs ih =>
    intro sel hs hc x hx
    have hstep : addNew sel (c :: cs) =
        addNew (if sel.contains c then sel else sel ++ [c]) cs := rfl
    rw [hstep] at hx
    refine ih _ ?_ (fun y hy => hc y (List.mem_cons_of_mem c hy)) x hx
    by_cases hin : sel.contains c
    · rw [if_pos hin]
      exact hs
    · rw [if_neg hin]
      intro y hy
      rcases List.mem_append.mp hy with hy | hy
      · exact hs y hy
      · rw [List.mem_singleton.mp hy]
        exact hc c (List.mem_cons_self c cs)

/-- `addNew` preserves duplicate freedom. -/
theorem addNew_nodup :
    ∀ (cands sel : List String), sel.Nodup → (addNew sel cands).Nodup := by
  intro cands
  induction cands with
  | nil => exact fun sel h => h
  | cons c cs ih =>
    intro sel h
    have hstep : addNew sel (c :: cs) =
        addNew (if sel.contains c then sel else sel ++ [c]) cs := rfl
    rw [hstep]
    refine ih _ ?_
    by_cases hin : sel.contains c
    · rw [if_pos hin]
      exact h
    · rw [if_neg hin]
      refine List.nodup_append.mpr ⟨h, List.nodup_singleton c, ?_⟩
      intro x hx hxc
      rw [List.mem_singleton.mp hxc] at hx
      exact hin (List.elem_eq_true_of_mem hx)

/-- A value produced by `lookupAssoc` is one of the table's values. -/
theorem lookupAssoc_mem_values {α : Type} (l : List (String × α)) (k : String) (v : α)
    (h : lookupAssoc l k = some v) : v ∈ l.map Prod.snd := by
  unfold lookupAssoc at h
  obtain ⟨p, hp, hpv⟩ := Option.map_eq_some'.mp h
  exact hpv ▸ List.mem_map_of_mem _ (List.mem_of_find?_eq_some hp)

/-- `contains = false` gives non-membership. -/
theorem not_mem_of_contains_false {x : String} {l : List String}
    (h : l.contains x = false) : x ∉ l := by
  simpa using h

/-- Every topic row of `topic_modules` lies inside the universe. -/
theorem topicRow_subset (topic : String) :
    ∀ x ∈ (lookupAssoc topicModules topic).getD [], x ∈ selectionUniverse := by
  cases h : lookupAssoc topicModules topic with
  | none => simp
  | some v =>
    have hv := lookupAssoc_mem_values topicModules topic v h
    simp only [topicModules, List.map_cons, List.map_nil, List.mem_cons,
      List.not_mem_nil, or_false] at hv
    simp only [Option.getD_some]
    rcases hv with rfl | rfl | rfl | rfl | rfl | rfl <;> decide

/-- The selected pool after the type row lies inside the universe. -/
theorem selectedAfterType_subset (r : RAIInput) :
    ∀ x ∈ selectedAfterType r, x ∈ selectionUniverse := by
  refine addNew_subset _ _ (by decide) ?_
  cases h : r.input_type <;> simp only [selectedAfterType, InputType.value] <;> decide

/-- Folding topic rows into a pool keeps it inside the universe. -/
theorem foldl_topics_subset :
    ∀ (topics base : List String), (∀ x ∈ base, x ∈ selectionUniverse) →
      ∀ x ∈ topics.foldl
        (fun acc topic => addNew acc ((lookupAssoc topicModules topic).getD [])) base,
        x ∈ selectionUniverse := by
  intro topics
  induction topics with
  | nil => exact fun base hb => hb
  | cons t ts ih =>
    intro base hb
    rw [List.foldl_cons]
    exact ih _ (addNew_subset _ _ hb (topicRow_subset t))

/-- The selected pool after the topic rows lies inside the universe. -/
theorem selectedAfterTopics_subset (r : RAIInput) :
    ∀ x ∈ selectedAfterTopics r, x ∈ selectionUniverse :=
  foldl_topics_subset r.detected_topics _ (selectedAfterType_subset r)

/-- The full candidate pool lies inside the universe. -/
theorem selectedAfterSL_subset (r : RAIInput) :
    ∀ x ∈ selectedAfterSL r, x ∈ selectionUniverse := by
  have h2 : ∀ x ∈ selectedAfterComplexity r, x ∈ selectionUniverse := by
    rw [selectedAfterComplexity]
    split
    · exact addNew_subset _ _ (selectedAfterTopics_subset r) (by decide)
    · exact selectedAfterTopics_subset r
  have h3 : ∀ x ∈ selectedAfterEmotion r, x ∈ selectionUniverse := by
    rw [selectedAfterEmotion]
    split
    · exact addNew_subset _ _ h2 (by decide)
    · exact h2
  have h4 : ∀ x ∈ selectedAfterFL r, x ∈ selectionUniverse := by
    rw [selectedAfterFL]
    split
    · exact h3
    · intro x hx
      rcases List.mem_append.mp hx with hx | hx
      · exact h3 x hx
      · rw [List.mem_singleton.mp hx]
        decide
  have h5 : ∀ x ∈ selectedAfterNL r, x ∈ selectionUniverse := by
    rw [selectedAfterNL]
    split
    · exact h4
    · intro x hx
      rcases List.mem_append.mp hx with hx | hx
      · exact h4 x hx
      · rw [List.mem_singleton.mp hx]
        decide
  rw [selectedAfterSL]
  split
  · exact h5
  · intro x hx
    rcases List.mem_append.mp hx with hx | hx
    · exact h5 x hx
    · rw [List.mem_singleton.mp hx]
      decide

/-- The selected module list lies inside the universe. -/
theorem selectModulesSemantic_subset (r : RAIInput) (analysis_mode : String)
    (max_modules : Nat) :
    ∀ x ∈ selectModulesSemantic r analysis_mode max_modules, x ∈ selectionUniverse := by
  intro x hx
  rw [selectModulesSemantic] at hx
  split at hx
  · exact selectedAfterSL_subset r x (List.take_subset 6 _ hx)
  · exact selectedAfterSL_subset r x hx

/-- Appending a level default keeps the pool duplicate-free: the default's
level is absent from the pool, so the default itself cannot be present. -/
theorem nodup_append_default (pool : List String) (d : String)
    (hnd : pool.Nodup) (habs : splitHead '-' d ∉ pool.map (splitHead '-')) :
    (pool ++ [d]).Nodup := by
  refine List.nodup_append.mpr ⟨hnd, List.nodup_singleton d, ?_⟩
  intro x hx hxd
  rw [List.mem_singleton.mp hxd] at hx
  exact habs (List.mem_map_of_mem _ hx)

/-- The selected module list is duplicate-free. -/
theorem selectModulesSemantic_nodup (r : RAIInput) (analysis_mode : String)
    (max_modules : Nat) :
    (selectModulesSemantic r analysis_mode max_modules).Nodup := by
  have h1 : (selectedAfterType r).Nodup := addNew_nodup _ _ (by decide)
  have hfold : ∀ (topics base : List String), base.Nodup →
      (topics.foldl
        (fun acc topic => addNew acc ((lookupAssoc topicModules topic).getD [])) base).Nodup := by
    intro topics
    induction topics with
    | nil => exact fun base hb => hb
    | cons t ts ih =>
      intro base hb
      rw [List.foldl_cons]
      exact ih _ (addNew_nodup _ _ hb)
  have h2 : (selectedAfterTopics r).Nodup := hfold r.detected_topics _ h1
  have h3 : (selectedAfterComplexity r).Nodup := by
    rw [selectedAfterComplexity]
    split
    · exact addNew_nodup _ _ h2
    · exact h2
  have h4 : (selectedAfterEmotion r).Nodup := by
    rw [selectedAfterEmotion]
    split
    · exact addNew_nodup _ _ h3
    · exact h3
  have h5 : (selectedAfterFL r).Nodup := by
    rw [selectedAfterFL]
    split
    · exact h4
    · next hcond =>
        refine nodup_append_default _ _ h4 ?_
        rw [show splitHead '-' "FL-1" = "FL" from rfl]
        exact not_mem_of_contains_false (Bool.eq_false_iff.mpr hcond)
  have h6 : (selectedAfterNL r).Nodup := by
    rw [selectedAfterNL]
    split
    · exact h5
    · next hcond =>
        refine nodup_append_default _ _ h5 ?_
        rw [show splitHead '-' "NL-1" = "NL" from rfl]
        exact not_mem_of_contains_false (Bool.eq_false_iff.mpr hcond)
  have h7 : (selectedAfterSL r).Nodup := by
    rw [selectedAfterSL]
    split
    · exact h6
    · next hcond =>
        refine nodup_append_default _ _ h6 ?_
        rw [show splitHead '-' "SL-1" = "SL" from rfl]
        exact not_mem_of_contains_false (Bool.eq_false_iff.mpr hcond)
  rw [selectModulesSemantic]
  split
  · exact h7.sublist (List.take_sublist 6 _)
  · exact h7

/-- The module ids of the built components form a sublist of the requested
ids (modules missing from the library are skipped). -/
theorem buildComponents_ids_sublist (module_ids : List String) :
    ((buildAnalysisComponents module_ids).map (fun c => c.module_id)).Sublist module_ids := by
  induction module_ids with
  | nil => simp [buildAnalysisComponents]
  | cons i is ih =>
    rw [buildAnalysisComponents] at ih ⊢
    cases h : getModuleData i with
    | none =>
      simp only [List.filterMap_cons, h, Option.map_none']
      exact ih.cons i
    | some md =>
      simp only [List.filterMap_cons, h, Option.map_some', List.map_cons]
      exact ih.cons₂ i

/-- `insertSorted` inserts: the result is a permutation of pushing the new
element on top. -/
theorem insertSorted_perm (x : String) :
    ∀ l : List String, (insertSorted x l).Perm (x :: l) := by
  intro l
  induction l with
  | nil => exact List.Perm.refl _
  | cons y ys ih =>
    rw [insertSorted]
    split
    · exact List.Perm.refl _
    · exact (ih.cons y).trans (List.Perm.swap x y ys)

/-- Python `sorted` permutes its input. -/
theorem pySorted_perm : ∀ l : List String, (pySorted l).Perm l := by
  intro l
  induction l with
  | nil => exact List.Perm.refl _
  | cons x xs ih =>
    have hstep : pySorted (x :: xs) = insertSorted x (pySorted xs) := rfl
    rw [hstep]
    exact (insertSorted_perm x (pySorted xs)).trans (ih.cons x)

/-- On the universe the four level prefixes are mutually exclusive and
exhaustive. -/
theorem universe_level_indicator :
    ∀ x ∈ selectionUniverse,
      ((pyStartsWith x "CL").toNat + (pyStartsWith x "FL").toNat +
        (pyStartsWith x "NL").toNat + (pyStartsWith x "SL").toNat) = 1 := by
  decide

/-- Partition permutation: on ids from the universe, the four level filters
partition the list. -/
theorem four_filters_perm (ids : List String)
    (hU : ∀ x ∈ ids, x ∈ selectionUniverse) :
    (ids.filter (fun m => pyStartsWith m "CL") ++ ids.filter (fun m => pyStartsWith m "FL") ++
      ids.filter (fun m => pyStartsWith m "NL") ++
      ids.filter (fun m => pyStartsWith m "SL")).Perm ids := by
  rw [List.perm_iff_count]
  intro a
  simp only [List.count_append]
  have hcnt : ∀ p : String → Bool,
      (ids.filter p).count a = if p a = true then ids.count a else 0 := by
    intro p
    by_cases hp : p a = true
    · rw [if_pos hp, List.count_filter hp]
    · rw [if_neg hp, List.count_eq_zero]
      intro hmem
      exact hp (List.of_mem_filter hmem)
  rw [hcnt, hcnt, hcnt, hcnt]
  by_cases hmem : a ∈ ids
  · have hind := universe_level_indicator a (hU a hmem)
    cases hCL : pyStartsWith a "CL" <;> cases hFL : pyStartsWith a "FL" <;>
      cases hNL : pyStartsWith a "NL" <;> cases hSL : pyStartsWith a "SL" <;>
      rw [hCL, hFL, hNL, hSL] at hind <;> simp_all
  · rw [List.count_eq_zero.mpr hmem]
    simp

/-- Rearrangement: system-entry block order is a permutation of the
partition order. -/
theorem perm_blocks_system (c f n s : List String) :
    (((c ++ s) ++ n) ++ f).Perm (((c ++ f) ++ n) ++ s) := by
  rw [List.perm_iff_count]
  intro a
  simp only [List.count_append]
  omega

/-- Rearrangement: narrative-entry block order is a permutation of the
partition order. -/
theorem perm_blocks_narrative (c f n s : List String) :
    (((c ++ n) ++ f) ++ s).Perm (((c ++ f) ++ n) ++ s) := by
  rw [List.perm_iff_count]
  intro a
  simp only [List.count_append]
  omega

/-- The execution order is a permutation of the component ids, whenever those
ids come from the selection universe. -/
theorem execOrder_perm (comps : List AnalysisComponent) (entry : String)
    (hU : ∀ x ∈ comps.map (fun c => c.module_id), x ∈ selectionUniverse) :
    (generateExecutionOrder comps entry).Perm (comps.map (fun c => c.module_id)) := by
  simp only [generateExecutionOrder]
  set ids := comps.map (fun c => c.module_id) with hids
  set clf := ids.filter (fun m => pyStartsWith m "CL") with hclf
  set flf := ids.filter (fun m => pyStartsWith m "FL") with hflf
  set nlf := ids.filter (fun m => pyStartsWith m "NL") with hnlf
  set slf := ids.filter (fun m => pyStartsWith m "SL") with hslf
  have hA1 : clf.contains "CL-0" = true →
      (["CL-0"] ++ pySorted (clf.erase "CL-0")).Perm clf := by
    intro hcl
    have hm : "CL-0" ∈ clf := List.mem_of_elem_eq_true hcl
    have hstep : (["CL-0"] ++ pySorted (clf.erase "CL-0")) =
        "CL-0" :: pySorted (clf.erase "CL-0") := rfl
    rw [hstep]
    exact ((pySorted_perm _).cons "CL-0").trans (List.perm_cons_erase hm).symm
  have hA2 : (([] : List String) ++ pySorted clf).Perm clf := by
    rw [List.nil_append]
    exact pySorted_perm clf
  have hfour := four_filters_perm ids hU
  rw [← hclf, ← hflf, ← hnlf, ← hslf] at hfour
  by_cases hcl : clf.contains "CL-0" = true
  · rw [if_pos hcl, if_pos hcl]
    by_cases h1 : entry = "system"
    · rw [if_pos h1]
      exact ((((hA1 hcl).append (pySorted_perm slf)).append (pySorted_perm nlf)).append
        (pySorted_perm flf)).trans ((perm_blocks_system clf flf nlf slf).trans hfour)
    · rw [if_neg h1]
      by_cases h2 : entry = "narrative"
      · rw [if_pos h2]
        exact ((((hA1 hcl).append (pySorted_perm nlf)).append (pySorted_perm flf)).append
          (pySorted_perm slf)).trans ((perm_blocks_narrative clf flf nlf slf).trans hfour)
      · rw [if_neg h2]
        exact ((((hA1 hcl).append (pySorted_perm flf)).append (pySorted_perm nlf)).append
          (pySorted_perm slf)).trans hfour
  · rw [if_neg hcl, if_neg hcl]
    by_cases h1 : entry = "system"
    · rw [if_pos h1]
      exact (((hA2.append (pySorted_perm slf)).append (pySorted_perm nlf)).append
        (pySorted_perm flf)).trans ((perm_blocks_system clf flf nlf slf).trans hfour)
    · rw [if_neg h1]
      by_cases h2 : entry = "narrative"
      · rw [if_pos h2]
        exact (((hA2.append (pySorted_perm nlf)).append (pySorted_perm flf)).append
          (pySorted_perm slf)).trans ((perm_blocks_narrative clf flf nlf slf).trans hfour)
      · rw [if_neg h2]
        exact (((hA2.append (pySorted_perm flf)).append (pySorted_perm nlf)).append
          (pySorted_perm slf)).trans hfour

/-- C2: for every classified input and mode, the execution order produced by
the selection operation is a permutation of the selected modules — it
contains every selected module id exactly once, with no duplicates and no
omissions. -/
theorem c2_execution_order_permutation (rai_input : RAIInput) (analysis_mode : String)
    (max_modules : Nat) :
    ((selectAnalysisComponents rai_input analysis_mode max_modules).execution_order).Perm
      ((selectAnalysisComponents rai_input analysis_mode max_modules).components.map
        (fun c => c.module_id)) := by
  have hsub : ∀ x ∈ (buildAnalysisComponents
      (selectModulesSemantic rai_input analysis_mode max_modules)).map
      (fun c => c.module_id), x ∈ selectionUniverse := by
    intro x hx
    exact selectModulesSemantic_subset rai_input analysis_mode max_modules x
      ((buildComponents_ids_sublist _).subset hx)
  exact execOrder_perm _ _ hsub

/-- Transitivity of the code-point lexicographic comparison. -/
theorem lexLt_trans : ∀ a b c : List Char,
    lexLt a b = true → lexLt b c = true → lexLt a c = true := by
  intro a
  induction a with
  | nil =>
    intro b c hab hbc
    cases b with
    | nil => exact absurd hab (by decide)
    | cons y ys =>
      cases c with
      | nil => simp [lexLt] at hbc
      | cons z zs => rfl
  | cons x xs ih =>
    intro b c hab hbc
    cases b with
    | nil => simp [lexLt] at hab
    | cons y ys =>
      cases c with
      | nil => simp [lexLt] at hbc
      | cons z zs =>
        rw [lexLt] at hab hbc ⊢
        by_cases hxy : x < y
        · rw [if_pos hxy] at hab
          by_cases hyz : y < z
          · rw [if_pos (lt_trans hxy hyz)]
          · rw [if_neg hyz] at hbc
            by_cases hyz' : y = z
            · rw [if_pos (hyz' ▸ hxy)]
            · rw [if_neg hyz'] at hbc
              exact absurd hbc (by decide)
        · rw [if_neg hxy] at hab
          by_cases hxy' : x = y
          · rw [if_pos hxy'] at hab
            by_cases hyz : y < z
            · rw [if_pos (hxy' ▸ hyz)]
            · rw [if_neg hyz] at hbc
              by_cases hyz' : y = z
              · rw [if_neg (by rw [hxy', hyz']; exact lt_irrefl z),
                  if_pos (hxy'.trans hyz')]
                rw [if_pos hyz'] at hbc
                exact ih ys zs hab hbc
              · rw [if_neg hyz'] at hbc
                exact absurd hbc (by decide)
          · rw [if_neg hxy'] at hab
            exact absurd hab (by decide)

/-- Connexity of the code-point lexicographic comparison. -/
theorem lexLt_connex : ∀ a b : List Char,
    a = b ∨ lexLt a b = true ∨ lexLt b a = true := by
  intro a
  induction a with
  | nil =>
    intro b
    cases b with
    | nil => exact Or.inl rfl
    | cons y ys => exact Or.inr (Or.inl rfl)
  | cons x xs ih =>
    intro b
    cases b with
    | nil => exact Or.inr (Or.inr rfl)
    | cons y ys =>
      rcases lt_trichotomy x y with hxy | hxy | hxy
      · refine Or.inr (Or.inl ?_)
        rw [lexLt, if_pos hxy]
      · subst hxy
        rcases ih ys with h | h | h
        · exact Or.inl (h ▸ rfl)
        · refine Or.inr (Or.inl ?_)
          rw [lexLt, if_neg (lt_irrefl x), if_pos rfl]
          exact h
        · refine Or.inr (Or.inr ?_)
          rw [lexLt, if_neg (lt_irrefl x), if_pos rfl]
          exact h
      · refine Or.inr (Or.inr ?_)
        rw [lexLt, if_pos hxy]
  
/-- Totality of the Python string comparison. -/
theorem pyStrLe_total (a b : String) : pyStrLe a b = true ∨ pyStrLe b a = true := by
  rcases lexLt_connex a.toList b.toList with h | h | h
  · have hab : a = b := by
      cases a
      cases b
      exact congrArg String.mk h
    left
    rw [pyStrLe, hab]
    simp
  · left
    rw [pyStrLe, h]
    simp
  · right
    rw [pyStrLe, h]
    simp

/-- Transitivity of the Python string comparison. -/
theorem pyStrLe_trans (a b c : String) (hab : pyStrLe a b = true)
    (hbc : pyStrLe b c = true) : pyStrLe a c = true := by
  rw [pyStrLe, Bool.or_eq_true, decide_eq_true_iff] at hab hbc ⊢
  rcases hab with hab | hab
  · rcases hbc with hbc | hbc
    · exact Or.inl (lexLt_trans _ _ _ hab hbc)
    · exact Or.inl (hbc ▸ hab)
  · rcases hbc with hbc | hbc
    · exact Or.inl (hab ▸ hbc)
    · exact Or.inr (hab.trans hbc)

/-- `insertSorted` preserves sortedness. -/
theorem insertSorted_pairwise (x : String) :
    ∀ l : List String, l.Pairwise (fun a b => pyStrLe a b = true) →
      (insertSorted x l).Pairwise (fun a b => pyStrLe a b = true) := by
  intro l
  induction l with
  | nil => exact fun _ => List.pairwise_singleton _ x
  | cons y ys ih =>
    intro h
    obtain ⟨hy, hys⟩ := List.pairwise_cons.mp h
    rw [insertSorted]
    split
    · next hxy =>
      refine List.pairwise_cons.mpr ⟨?_, h⟩
      intro b hb
      rcases List.mem_cons.mp hb with rfl | hb
      · exact hxy
      · exact pyStrLe_trans x y b hxy (hy b hb)
    · next hxy =>
      have hyx : pyStrLe y x = true := by
        rcases pyStrLe_total x y with h' | h'
        · exact absurd h' hxy
        · exact h'
      refine List.pairwise_cons.mpr ⟨?_, ih hys⟩
      intro b hb
      rcases List.mem_cons.mp ((insertSorted_perm x ys).mem_iff.mp hb) with rfl | hb'
      · exact hyx
      · exact hy b hb' 

/-- Python `sorted` output is pairwise ordered. -/
theorem pySorted_pairwise : ∀ l : List String,
    (pySorted l).Pairwise (fun a b => pyStrLe a b = true) := by
  intro l
  induction l with
  | nil => exact List.Pairwise.nil
  | cons x xs ih =>
    have hstep : pySorted (x :: xs) = insertSorted x (pySorted xs) := rfl
    rw [hstep]
    exact insertSorted_pairwise x _ ih

/-- The within-level ordering relation of the execution-order claim: two ids
of the same level appear in ascending numeric-suffix order. -/
def sameLevelSuffixLe (a b : String) : Prop :=
  splitHead '-' a = splitHead '-' b → suffixNum a ≤ suffixNum b

/-- On the universe (whose ids all have one-digit suffixes), Python string
order within one level is numeric suffix order. -/
theorem universe_sorted_suffix :
    ∀ a ∈ selectionUniverse, ∀ b ∈ selectionUniverse,
      pyStrLe a b = true → splitHead '-' a = splitHead '-' b →
        suffixNum a ≤ suffixNum b := by
  decide

/-- A sorted block drawn from the universe satisfies the suffix relation. -/
theorem pairwise_R_sorted (lst : List String)
    (hsub : ∀ x ∈ lst, x ∈ selectionUniverse) :
    (pySorted lst).Pairwise sameLevelSuffixLe := by
  refine (pySorted_pairwise lst).imp_of_mem ?_
  intro a b ha hb hle
  exact universe_sorted_suffix a (hsub a ((pySorted_perm lst).mem_iff.mp ha))
    b (hsub b ((pySorted_perm lst).mem_iff.mp hb)) hle

/-- Appending blocks whose levels never coincide preserves the relation. -/
theorem pairwise_R_append (l1 l2 : List String)
    (h1 : l1.Pairwise sameLevelSuffixLe) (h2 : l2.Pairwise sameLevelSuffixLe)
    (hcross : ∀ a ∈ l1, ∀ b ∈ l2, splitHead '-' a ≠ splitHead '-' b) :
    (l1 ++ l2).Pairwise sameLevelSuffixLe :=
  List.pairwise_append.mpr ⟨h1, h2, fun a ha b hb heq => absurd heq (hcross a ha b hb)⟩

/-- A universe id with the CL prefix has level CL. -/
theorem universe_level_CL :
    ∀ x ∈ selectionUniverse, pyStartsWith x "CL" = true → splitHead '-' x = "CL" := by
  decide

/-- A universe id with the FL prefix has level FL. -/
theorem universe_level_FL :
    ∀ x ∈ selectionUniverse, pyStartsWith x "FL" = true → splitHead '-' x = "FL" := by
  decide

/-- A universe id with the NL prefix has level NL. -/
theorem universe_level_NL :
    ∀ x ∈ selectionUniverse, pyStartsWith x "NL" = true → splitHead '-' x = "NL" := by
  decide

/-- A universe id with the SL prefix has level SL. -/
theorem universe_level_SL :
    ∀ x ∈ selectionUniverse, pyStartsWith x "SL" = true → splitHead '-' x = "SL" := by
  decide

/-- Elements of a sorted level filter all carry that level. -/
theorem sorted_filter_level (p : String → Bool) (lev : String) (ids : List String)
    (hU : ∀ x ∈ ids, x ∈ selectionUniverse)
    (hlev : ∀ x ∈ selectionUniverse, p x = true → splitHead '-' x = lev) :
    ∀ x ∈ pySorted (ids.filter p), splitHead '-' x = lev := by
  intro x hx
  have hx2 : x ∈ ids.filter p := (pySorted_perm _).mem_iff.mp hx
  exact hlev x (hU x (List.mem_of_mem_filter hx2)) (List.of_mem_filter hx2)

/-- Four appended blocks of pairwise distinct levels satisfy the relation. -/
theorem pairwise_R_four (A B C D : List String) (lA lB lC lD : String)
    (hA : A.Pairwise sameLevelSuffixLe) (hB : B.Pairwise sameLevelSuffixLe)
    (hC : C.Pairwise sameLevelSuffixLe) (hD : D.Pairwise sameLevelSuffixLe)
    (hAl : ∀ x ∈ A, splitHead '-' x = lA) (hBl : ∀ x ∈ B, splitHead '-' x = lB)
    (hCl : ∀ x ∈ C, splitHead '-' x = lC) (hDl : ∀ x ∈ D, splitHead '-' x = lD)
    (hABne : lA ≠ lB) (hACne : lA ≠ lC) (hADne : lA ≠ lD)
    (hBCne : lB ≠ lC) (hBDne : lB ≠ lD) (hCDne : lC ≠ lD) :
    (((A ++ B) ++ C) ++ D).Pairwise sameLevelSuffixLe := by
  have h1 : (A ++ B).Pairwise sameLevelSuffixLe :=
    pairwise_R_append A B hA hB (fun a ha b hb => by
      rw [hAl a ha, hBl b hb]
      exact hABne)
  have h1l : ∀ x ∈ A ++ B, splitHead '-' x = lA ∨ splitHead '-' x = lB := fun x hx =>
    (List.mem_append.mp hx).imp (hAl x) (hBl x)
  have h2 : ((A ++ B) ++ C).Pairwise sameLevelSuffixLe :=
    pairwise_R_append _ C h1 hC (fun a ha b hb => by
      rw [hCl b hb]
      rcases h1l a ha with h | h
      · rw [h]
        exact hACne
      · rw [h]
        exact hBCne)
  have h2l : ∀ x ∈ (A ++ B) ++ C,
      splitHead '-' x = lA ∨ splitHead '-' x = lB ∨ splitHead '-' x = lC := by
    intro x hx
    rcases List.mem_append.mp hx with hx | hx
    · exact (h1l x hx).imp id Or.inl
    · exact Or.inr (Or.inr (hCl x hx))
  exact pairwise_R_append _ D h2 hD (fun a ha b hb => by
    rw [hDl b hb]
    rcases h2l a ha with h | h | h
    · rw [h]
      exact hADne
    · rw [h]
      exact hBDne
    · rw [h]
      exact hCDne)

/-- The execution order satisfies the within-level suffix ordering, whenever
the component ids come from the selection universe. -/
theorem execOrder_pairwise (comps : List AnalysisComponent) (entry : String)
    (hU : ∀ x ∈ comps.map (fun c => c.module_id), x ∈ selectionUniverse) :
    (generateExecutionOrder comps entry).Pairwise sameLevelSuffixLe := by
  simp only [generateExecutionOrder]
  set ids := comps.map (fun c => c.module_id) with hids
  set clf := ids.filter (fun m => pyStartsWith m "CL") with hclf
  set flf := ids.filter (fun m => pyStartsWith m "FL") with hflf
  set nlf := ids.filter (fun m => pyStartsWith m "NL") with hnlf
  set slf := ids.filter (fun m => pyStartsWith m "SL") with hslf
  have hsubCL : ∀ x ∈ clf, x ∈ selectionUniverse := fun x hx =>
    hU x (List.mem_of_mem_filter hx)
  have hsubFL : ∀ x ∈ flf, x ∈ selectionUniverse := fun x hx =>
    hU x (List.mem_of_mem_filter hx)
  have hsubNL : ∀ x ∈ nlf, x ∈ selectionUniverse := fun x hx =>
    hU x (List.mem_of_mem_filter hx)
  have hsubSL : ∀ x ∈ slf, x ∈ selectionUniverse := fun x hx =>
    hU x (List.mem_of_mem_filter hx)
  have hsubErase : ∀ x ∈ clf.erase "CL-0", x ∈ selectionUniverse := fun x hx =>
    hsubCL x (List.erase_subset _ _ hx)
  have hlevCL : ∀ x ∈ pySorted clf, splitHead '-' x = "CL" :=
    sorted_filter_level _ "CL" ids hU universe_level_CL
  have hlevFL : ∀ x ∈ pySorted flf, splitHead '-' x = "FL" :=
    sorted_filter_level _ "FL" ids hU universe_level_FL
  have hlevNL : ∀ x ∈ pySorted nlf, splitHead '-' x = "NL" :=
    sorted_filter_level _ "NL" ids hU universe_level_NL
  have hlevSL : ∀ x ∈ pySorted slf, splitHead '-' x = "SL" :=
    sorted_filter_level _ "SL" ids hU universe_level_SL
  have hlevErase : ∀ x ∈ pySorted (clf.erase "CL-0"), splitHead '-' x = "CL" := by
    intro x hx
    have hx2 : x ∈ clf.erase "CL-0" := (pySorted_perm _).mem_iff.mp hx
    have hx3 : x ∈ clf := List.erase_subset _ _ hx2
    have hx4 := hx3
    rw [hclf] at hx4
    have hx5 := List.of_mem_filter hx4
    exact universe_level_CL x (hsubCL x hx3) hx5
  have hApos : (["CL-0"] ++ pySorted (clf.erase "CL-0")).Pairwise sameLevelSuffixLe := by
    have hstep : (["CL-0"] ++ pySorted (clf.erase "CL-0")) =
        "CL-0" :: pySorted (clf.erase "CL-0") := rfl
    rw [hstep]
    refine List.pairwise_cons.mpr ⟨?_, pairwise_R_sorted _ hsubErase⟩
    intro b _ _
    exact Nat.zero_le _
  have hAposl : ∀ x ∈ ["CL-0"] ++ pySorted (clf.erase "CL-0"), splitHead '-' x = "CL" := by
    intro x hx
    rcases List.mem_append.mp hx with hx | hx
    · rw [List.mem_singleton.mp hx]
      decide
    · exact hlevErase x hx
  have hAneg : (([] : List String) ++ pySorted clf).Pairwise sameLevelSuffixLe := by
    rw [List.nil_append]
    exact pairwise_R_sorted _ hsubCL
  have hAnegl : ∀ x ∈ ([] : List String) ++ pySorted clf, splitHead '-' x = "CL" := by
    intro x hx
    rw [List.nil_append] at hx
    exact hlevCL x hx
  by_cases hcl : clf.contains "CL-0" = true
  · rw [if_pos hcl, if_pos hcl]
    by_cases h1 : entry = "system"
    · rw [if_pos h1]
      exact pairwise_R_four _ _ _ _ "CL" "SL" "NL" "FL" hApos
        (pairwise_R_sorted _ hsubSL) (pairwise_R_sorted _ hsubNL)
        (pairwise_R_sorted _ hsubFL) hAposl hlevSL hlevNL hlevFL
        (by decide) (by decide) (by decide) (by decide) (by decide) (by decide)
    · rw [if_neg h1]
      by_cases h2 : entry = "narrative"
      · rw [if_pos h2]
        exact pairwise_R_four _ _ _ _ "CL" "NL" "FL" "SL" hApos
          (pairwise_R_sorted _ hsubNL) (pairwise_R_sorted _ hsubFL)
          (pairwise_R_sorted _ hsubSL) hAposl hlevNL hlevFL hlevSL
          (by decide) (by decide) (by decide) (by decide) (by decide) (by decide)
      · rw [if_neg h2]
        exact pairwise_R_four _ _ _ _ "CL" "FL" "NL" "SL" hApos
          (pairwise_R_sorted _ hsubFL) (pairwise_R_sorted _ hsubNL)
          (pairwise_R_sorted _ hsubSL) hAposl hlevFL hlevNL hlevSL
          (by decide) (by decide) (by decide) (by decide) (by decide) (by decide)
  · rw [if_neg hcl, if_neg hcl]
    by_cases h1 : entry = "system"
    · rw [if_pos h1]
      exact pairwise_R_four _ _ _ _ "CL" "SL" "NL" "FL" hAneg
        (pairwise_R_sorted _ hsubSL) (pairwise_R_sorted _ hsubNL)
        (pairwise_R_sorted _ hsubFL) hAnegl hlevSL hlevNL hlevFL
        (by decide) (by decide) (by decide) (by decide) (by decide) (by decide)
    · rw [if_neg h1]
      by_cases h2 : entry = "narrative"
      · rw [if_pos h2]
        exact pairwise_R_four _ _ _ _ "CL" "NL" "FL" "SL" hAneg
          (pairwise_R_sorted _ hsubNL) (pairwise_R_sorted _ hsubFL)
          (pairwise_R_sorted _ hsubSL) hAnegl hlevNL hlevFL hlevSL
          (by decide) (by decide) (by decide) (by decide) (by decide) (by decide)
      · rw [if_neg h2]
        exact pairwise_R_four _ _ _ _ "CL" "FL" "NL" "SL" hAneg
          (pairwise_R_sorted _ hsubFL) (pairwise_R_sorted _ hsubNL)
          (pairwise_R_sorted _ hsubSL) hAnegl hlevFL hlevNL hlevSL
          (by decide) (by decide) (by decide) (by decide) (by decide) (by decide)

/-- C6: in the execution order produced by the selection operation, any two
modules of the same level appear in ascending numeric-suffix order (for
example FL-2 before FL-9), for every classified input and mode. -/
theorem c6_execution_order_suffix_sorted (rai_input : RAIInput)
    (analysis_mode : String) (max_modules : Nat) :
    ((selectAnalysisComponents rai_input analysis_mode max_modules).execution_order).Pairwise
      sameLevelSuffixLe := by
  have hsub : ∀ x ∈ (buildAnalysisComponents
      (selectModulesSemantic rai_input analysis_mode max_modules)).map
      (fun c => c.module_id), x ∈ selectionUniverse := by
    intro x hx
    exact selectModulesSemantic_subset rai_input analysis_mode max_modules x
      ((buildComponents_ids_sublist _).subset hx)
  exact execOrder_pairwise _ _ hsub

/-- `pyJoin` on a two-element list. -/
theorem pyJoin_two (s a b : String) : pyJoin s [a, b] = a ++ s ++ b := rfl

/-- `pyJoin` on a three-element list. -/
theorem pyJoin_three (s a b c : String) :
    pyJoin s [a, b, c] = a ++ s ++ (b ++ s ++ c) := rfl

/-- `pyJoin` on a four-element list. -/
theorem pyJoin_four (s a b c d : String) :
    pyJoin s [a, b, c, d] = a ++ s ++ (b ++ s ++ (c ++ s ++ d)) := rfl

/-- C10: the selection result is independent of the analysis mode — for any
two modes (same `max_modules`), the entry point, components, execution
order and totals coincide; only the rationale differs, and it does so only
by embedding the mode name between a fixed prefix and a fixed suffix. -/
theorem c10_selection_mode_independent (rai_input : RAIInput) (max_modules : Nat)
    (mode1 mode2 : String) :
    (selectAnalysisComponents rai_input mode1 max_modules).entry_point =
      (selectAnalysisComponents rai_input mode2 max_modules).entry_point ∧
    (selectAnalysisComponents rai_input mode1 max_modules).components =
      (selectAnalysisComponents rai_input mode2 max_modules).components ∧
    (selectAnalysisComponents rai_input mode1 max_modules).execution_order =
      (selectAnalysisComponents rai_input mode2 max_modules).execution_order ∧
    (selectAnalysisComponents rai_input mode1 max_modules).total_modules =
      (selectAnalysisComponents rai_input mode2 max_modules).total_modules ∧
    (selectAnalysisComponents rai_input mode1 max_modules).total_premises =
      (selectAnalysisComponents rai_input mode2 max_modules).total_premises ∧
    (∃ pre suf : String, ∀ mode : String,
      (selectAnalysisComponents rai_input mode max_modules).selection_rationale =
        pre ++ (mode ++ suf)) := by
  refine ⟨rfl, rfl, rfl, rfl, rfl, ?_⟩
  set comps := buildAnalysisComponents
    (selectModulesSemantic rai_input "guided" max_modules) with hcomps
  set p1 := "Input classified as " ++ rai_input.input_type.value ++
    " with complexity " ++ toString rai_input.complexity_score ++ "/5" with hp1
  set ptop := "Detected topics: " ++ pyJoin ", " rai_input.detected_topics with hptop
  set selPre := "Selected " ++ toString comps.length ++ " modules (" ++
    pyJoin ", " ((levelCounts comps).map (fun p => p.1 ++ "=" ++ toString p.2)) ++
    ") for " with hselPre
  set pprem := "Extracted " ++ toString (totalPremises comps) ++
    " anchored premises for philosophical depth" with hpprem
  have hred : ∀ mode : String,
      (selectAnalysisComponents rai_input mode max_modules).selection_rationale =
        generateRationale rai_input comps mode := fun mode => rfl
  by_cases htop : rai_input.detected_topics.isEmpty
  · by_cases hprem : totalPremises comps = 0
    · refine ⟨p1 ++ ". " ++ selPre, " analysis" ++ ".", fun mode => ?_⟩
      rw [hred mode, generateRationale, if_pos htop, if_pos hprem]
      simp only [List.cons_append, List.nil_append]
      rw [← hp1, ← hselPre, pyJoin_two]
      simp [String.append_assoc]
    · refine ⟨p1 ++ ". " ++ selPre, " analysis" ++ ". " ++ pprem ++ ".", fun mode => ?_⟩
      rw [hred mode, generateRationale, if_pos htop, if_neg hprem]
      simp only [List.cons_append, List.nil_append]
      rw [← hp1, ← hselPre, ← hpprem, pyJoin_three]
      simp [String.append_assoc]
  · by_cases hprem : totalPremises comps = 0
    · refine ⟨p1 ++ ". " ++ ptop ++ ". " ++ selPre, " analysis" ++ ".", fun mode => ?_⟩
      rw [hred mode, generateRationale, if_neg htop, if_pos hprem]
      simp only [List.cons_append, List.nil_append]
      rw [← hp1, ← hptop, ← hselPre, pyJoin_three]
      simp [String.append_assoc]
    · refine ⟨p1 ++ ". " ++ ptop ++ ". " ++ selPre,
        " analysis" ++ ". " ++ pprem ++ ".", fun mode => ?_⟩
      rw [hred mode, generateRationale, if_neg htop, if_neg hprem]
      simp only [List.cons_append, List.nil_append]
      rw [← hp1, ← hptop, ← hselPre, ← hpprem, pyJoin_four]
      simp [String.append_assoc]

end RAI
